import Mathlib

/-!
Verification development for the ai-fitness-coach repository.

The definitions below are a shallow embedding of the core of the repository:
the `pose-analysis-3d` package (geometry kernel, per-exercise rep detector,
per-exercise form validators) and the `coaching-engine` package (feedback
generator, phrase tables, motivation engine, rep counter, voice delivery
queue).  JavaScript numbers are modelled as real numbers on the pose-analysis
side (the geometry uses `acos`, `atan2` and `sqrt`) and as rational numbers on
the coaching-engine side (which only uses field arithmetic and comparisons).
A JavaScript `NaN` produced by a 0/0 division is modelled as `Option.none`;
a thrown `TypeError` (property access on `undefined`) is modelled by
`Except.error JsError.typeError`.
-/

namespace FitnessCoach

/-- JavaScript runtime exceptions observable from the embedded code. -/
inductive JsError
  | typeError
  deriving DecidableEq

/-! ## pose-analysis-3d: data types (`types/pose.types.ts`, `types/exercise.types.ts`) -/

/-- One tracked body point (`Landmark` in `pose.types.ts`). -/
structure Landmark where
  id : ℕ
  x : ℝ
  y : ℝ
  z : ℝ
  visibility : ℝ

/-- One timestamped snapshot of landmarks (`PoseFrame` in `pose.types.ts`).
The `confidence` and `state` fields of the source interface are never read by
the embedded functions and are omitted. -/
structure PoseFrame where
  timestamp : ℝ
  landmarks : List Landmark
  frameNumber : ℕ

/-- `ExerciseType` enum from `exercise.types.ts`. -/
inductive ExerciseType
  | marching
  | jumping_jacks
  | push_ups
  deriving DecidableEq

/-- `Discipline` enum from `exercise.types.ts`. -/
inductive Discipline
  | fitness
  | yoga
  | general
  deriving DecidableEq

/-- `Severity` enum (identical in `exercise.types.ts` and `feedback.types.ts`). -/
inductive Severity
  | info
  | normal
  | high
  | critical
  deriving DecidableEq

/-- `FormErrorType` enum from `exercise.types.ts`, together with the
`POSE_INCOMPLETE` member referenced by the jumping-jacks and marching
validators. -/
inductive FormErrorType
  | knee_valgus
  | back_rounding
  | elbow_flaring
  | shallow_depth
  | asymmetric_movement
  | neck_misalignment
  | incorrect_joint_angle
  | pose_incomplete
  deriving DecidableEq

/-- `frame.landmarks.find((l) => l.id === id)` — the landmark lookup used by
every validator and by the rep detector. -/
def findLm (frame : PoseFrame) (id : ℕ) : Option Landmark :=
  frame.landmarks.find? (fun l => l.id == id)

/-! ## Geometry kernel (`geometry/*.ts`) -/

/-- `calculateAngle` from the geometry kernel: angle ABC in degrees computed
with `acos` of the normalized dot product.  When one of the vectors B→A, B→C
has zero length the JavaScript code computes `0/0 = NaN` and `acos(NaN) = NaN`;
the `none` result models that NaN.  (By Cauchy–Schwarz the quotient lies in
[-1,1] whenever the denominator is nonzero, so `Real.arccos` agrees with JS
`Math.acos` on the `some` branch.) -/
noncomputable def calculateAngle (pointA pointB pointC : Landmark) : Option ℝ :=
  let baX := pointA.x - pointB.x
  let baY := pointA.y - pointB.y
  let baZ := pointA.z - pointB.z
  let bcX := pointC.x - pointB.x
  let bcY := pointC.y - pointB.y
  let bcZ := pointC.z - pointB.z
  let dotProduct := baX * bcX + baY * bcY + baZ * bcZ
  let magnitudeBA := Real.sqrt (baX * baX + baY * baY + baZ * baZ)
  let magnitudeBC := Real.sqrt (bcX * bcX + bcY * bcY + bcZ * bcZ)
  if magnitudeBA * magnitudeBC = 0 then none
  else some (Real.arccos (dotProduct / (magnitudeBA * magnitudeBC)) * 180 / Real.pi)

/-- `calculateDistance3D` from the geometry kernel. -/
noncomputable def calculateDistance3D (pointA pointB : Landmark) : ℝ :=
  let dx := pointB.x - pointA.x
  let dy := pointB.y - pointA.y
  let dz := pointB.z - pointA.z
  Real.sqrt (dx * dx + dy * dy + dz * dz)

/-- JavaScript `Math.atan2`, restricted to real (non-NaN) arguments. -/
noncomputable def jsAtan2 (y x : ℝ) : ℝ :=
  if 0 < x then Real.arctan (y / x)
  else if x < 0 then
    (if 0 ≤ y then Real.arctan (y / x) + Real.pi else Real.arctan (y / x) - Real.pi)
  else
    (if 0 < y then Real.pi / 2 else if y < 0 then -(Real.pi / 2) else 0)

/-- Helper: `arccos` rescaled to degrees lands in [0, 180]. -/
theorem arccos_deg_range (x : ℝ) :
    0 ≤ Real.arccos x * 180 / Real.pi ∧ Real.arccos x * 180 / Real.pi ≤ 180 := by
  constructor
  · exact div_nonneg (mul_nonneg (Real.arccos_nonneg x) (by norm_num)) Real.pi_pos.le
  · rw [div_le_iff₀ Real.pi_pos]
    nlinarith [Real.arccos_le_pi x, Real.pi_pos]

/-- Helper lemma (not itself a claim): on the non-degenerate branch the angle
returned by `calculateAngle` always lies in the interval [0, 180]. -/
theorem calculateAngle_range (a b c : Landmark) (θ : ℝ)
    (h : calculateAngle a b c = some θ) : 0 ≤ θ ∧ θ ≤ 180 := by
  unfold calculateAngle at h
  dsimp only at h
  split at h
  · exact absurd h (by simp)
  · have hθ := Option.some.inj h
    subst hθ
    exact arccos_deg_range _

/-! ## Rep detector (`exercises/rep-detector.ts`) -/

/-- `RepPhase` enum. -/
inductive RepPhase
  | neutral
  | down
  | up
  deriving DecidableEq

/-- `RepState` interface.  `progress` is a JS number that can become NaN (the
push-ups progress formula evaluated at a NaN elbow angle), so it is modelled
as `Option ℝ` with `none` for NaN. -/
structure RepState where
  phase : RepPhase
  progress : Option ℝ
  startFrame : ℕ
  currentPeak : ℝ

/-- `RepEvent` interface of the rep detector. -/
structure RepEvent where
  repNumber : ℕ
  startFrame : ℕ
  endFrame : ℕ
  durationMs : ℝ
  peakValue : ℝ
  peakFrame : ℕ
  thresholdMet : Bool

/-- The `RepDetector` instance fields. -/
structure RepDetector where
  exercise : ExerciseType
  state : RepState
  repCount : ℕ
  startTimestamp : ℝ

/-- A freshly constructed `RepDetector` (also the post-`reset()` state). -/
def initDetector (exercise : ExerciseType) : RepDetector :=
  ⟨exercise, ⟨RepPhase.neutral, some 0, 0, 0⟩, 0, 0⟩

/-- `RepDetector.processPushUps`.  The source reads the three landmarks with a
TypeScript non-null assertion (`find(...)!`); when a landmark is absent the
subsequent property access inside `calculateAngle` throws a `TypeError`,
modelled by the `Except.error` branch. -/
noncomputable def processPushUps (d : RepDetector) (frame : PoseFrame) :
    Except JsError (RepDetector × Option RepEvent) :=
  match findLm frame 11, findLm frame 13, findLm frame 15 with
  | some leftShoulder, some leftElbow, some leftWrist =>
    let elbowAngle := calculateAngle leftShoulder leftElbow leftWrist
    Except.ok (match d.state.phase with
      | RepPhase.neutral | RepPhase.up =>
        (match elbowAngle with
         | some v =>
           if v < 90 then
             ({ d with
                state := ⟨RepPhase.down, some 50, frame.frameNumber, v⟩,
                startTimestamp := frame.timestamp }, none)
           else (d, none)
         | none => (d, none))
      | RepPhase.down =>
        let peak :=
          match elbowAngle with
          | some v => if v < d.state.currentPeak then v else d.state.currentPeak
          | none => d.state.currentPeak
        match elbowAngle with
        | some v =>
          if 160 < v then
            let repEvent : RepEvent :=
              ⟨d.repCount + 1, d.state.startFrame, frame.frameNumber,
               frame.timestamp - d.startTimestamp, peak, d.state.startFrame,
               decide (peak ≤ 90)⟩
            ({ d with
               state := ⟨RepPhase.up, some 100, frame.frameNumber, v⟩,
               repCount := d.repCount + 1 }, some repEvent)
          else
            ({ d with
               state := ⟨RepPhase.down, some (min 90 (50 + (90 - v) / 90 * 40)),
                         d.state.startFrame, peak⟩ }, none)
        | none =>
          ({ d with
             state := ⟨RepPhase.down, none, d.state.startFrame, peak⟩ }, none))
  | _, _, _ => Except.error JsError.typeError

/-- The lifted-leg metric of `RepDetector.processMarching`: the knee with the
smaller y coordinate counts as lifted, and the metric is the y distance from
the matching hip down to that knee. -/
noncomputable def marchingLiftHeight (leftHip rightHip leftKnee rightKnee : Landmark) : ℝ :=
  let liftedKnee := if leftKnee.y < rightKnee.y then leftKnee else rightKnee
  let liftedHip := if leftKnee.y < rightKnee.y then leftHip else rightHip
  liftedHip.y - liftedKnee.y

/-- `RepDetector.processMarching`.  The lifted-leg selection is by
`leftKnee.y < rightKnee.y`; missing landmarks throw as in `processPushUps`. -/
noncomputable def processMarching (d : RepDetector) (frame : PoseFrame) :
    Except JsError (RepDetector × Option RepEvent) :=
  match findLm frame 23, findLm frame 24, findLm frame 25, findLm frame 26 with
  | some leftHip, some rightHip, some leftKnee, some rightKnee =>
    let hipLiftHeight := marchingLiftHeight leftHip rightHip leftKnee rightKnee
    Except.ok (match d.state.phase with
      | RepPhase.neutral | RepPhase.down =>
        if (0.12 : ℝ) < hipLiftHeight then
          ({ d with
             state := ⟨RepPhase.up, some 50, frame.frameNumber, hipLiftHeight⟩,
             startTimestamp := frame.timestamp }, none)
        else (d, none)
      | RepPhase.up =>
        let peak :=
          if d.state.currentPeak < hipLiftHeight then hipLiftHeight
          else d.state.currentPeak
        if hipLiftHeight < (0.05 : ℝ) then
          let repEvent : RepEvent :=
            ⟨d.repCount + 1, d.state.startFrame, frame.frameNumber,
             frame.timestamp - d.startTimestamp, peak, d.state.startFrame,
             decide ((0.12 : ℝ) ≤ peak)⟩
          ({ d with
             state := ⟨RepPhase.down, some 100, frame.frameNumber, hipLiftHeight⟩,
             repCount := d.repCount + 1 }, some repEvent)
        else
          ({ d with
             state := ⟨RepPhase.up, some (min 90 (50 + hipLiftHeight / 0.12 * 40)),
                       d.state.startFrame, peak⟩ }, none))
  | _, _, _, _ => Except.error JsError.typeError

/-- `RepDetector.processJumpingJacks`: combined wrist/ankle spread metric with
open/close thresholds 0.4 and 0.15. -/
noncomputable def processJumpingJacks (d : RepDetector) (frame : PoseFrame) :
    Except JsError (RepDetector × Option RepEvent) :=
  match findLm frame 15, findLm frame 16, findLm frame 27, findLm frame 28 with
  | some leftWrist, some rightWrist, some leftAnkle, some rightAnkle =>
    let armSpread := |leftWrist.x - rightWrist.x|
    let legSpread := |leftAnkle.x - rightAnkle.x|
    let combinedSpread := (armSpread + legSpread) / 2
    Except.ok (match d.state.phase with
      | RepPhase.neutral | RepPhase.down =>
        if (0.4 : ℝ) < combinedSpread then
          ({ d with
             state := ⟨RepPhase.up, some 50, frame.frameNumber, combinedSpread⟩,
             startTimestamp := frame.timestamp }, none)
        else (d, none)
      | RepPhase.up =>
        let peak :=
          if d.state.currentPeak < combinedSpread then combinedSpread
          else d.state.currentPeak
        if combinedSpread < (0.15 : ℝ) then
          let repEvent : RepEvent :=
            ⟨d.repCount + 1, d.state.startFrame, frame.frameNumber,
             frame.timestamp - d.startTimestamp, peak, d.state.startFrame,
             decide ((0.4 : ℝ) ≤ peak)⟩
          ({ d with
             state := ⟨RepPhase.down, some 100, frame.frameNumber, combinedSpread⟩,
             repCount := d.repCount + 1 }, some repEvent)
        else
          ({ d with
             state := ⟨RepPhase.up, some (min 90 (50 + combinedSpread / 0.4 * 40)),
                       d.state.startFrame, peak⟩ }, none))
  | _, _, _, _ => Except.error JsError.typeError

/-- `RepDetector.processFrame`: dispatch on the exercise bound at
construction. -/
noncomputable def processFrame (d : RepDetector) (frame : PoseFrame) :
    Except JsError (RepDetector × Option RepEvent) :=
  match d.exercise with
  | ExerciseType.push_ups => processPushUps d frame
  | ExerciseType.marching => processMarching d frame
  | ExerciseType.jumping_jacks => processJumpingJacks d frame

/-- Processing a list of frames in arrival order, collecting the emitted rep
events; an exception aborts the run (it would propagate to the caller). -/
noncomputable def runDetector (d : RepDetector) :
    List PoseFrame → Except JsError (RepDetector × List RepEvent)
  | [] => Except.ok (d, [])
  | f :: fs =>
    match processFrame d f with
    | Except.error e => Except.error e
    | Except.ok (d₁, ev) =>
      match runDetector d₁ fs with
      | Except.error e => Except.error e
      | Except.ok (d₂, evs) => Except.ok (d₂, ev.toList ++ evs)

/-! ## Form validators (`exercises/form-validator.ts`, `push-ups-validator.ts`,
`jumping-jacks-validator.ts`) -/

/-- `FormError` interface of `form-validator.ts`. -/
structure FormError where
  type : FormErrorType
  severity : Severity
  description : String
  measuredValue : ℝ
  threshold : ℝ
  correction : String

/-- `FormValidationResult` interface.  The diagnostic `measurements` map is
never read by any embedded consumer and is omitted. -/
structure FormValidationResult where
  score : ℝ
  errors : List FormError
  isAcceptable : Bool

/-- The numeric rank used by every validator to sort errors
(`critical: 0, high: 1, normal: 2, info: 3`). -/
def severityRank : Severity → ℕ
  | Severity.critical => 0
  | Severity.high => 1
  | Severity.normal => 2
  | Severity.info => 3

/-- Stable insertion step for the severity sort. -/
def insertBySeverity (e : FormError) : List FormError → List FormError
  | [] => [e]
  | x :: xs =>
    if severityRank e.severity ≤ severityRank x.severity then e :: x :: xs
    else x :: insertBySeverity e xs

/-- `errors.sort((a, b) => severityOrder[a.severity] - severityOrder[b.severity])`:
a stable sort by ascending severity rank (CRITICAL first), as performed by the
ECMAScript stable `Array.prototype.sort`. -/
def sortBySeverity : List FormError → List FormError
  | [] => []
  | x :: xs => insertBySeverity x (sortBySeverity xs)

/-- `FormThresholds` interface. -/
structure FormThresholds where
  minKneeAngle : ℝ
  maxKneeValgus : ℝ
  maxSpineCurvature : ℝ
  minElbowBend : ℝ
  maxAsymmetry : ℝ

/-- `FormValidator.getDefaultThresholds`: base thresholds adjusted per
discipline. -/
def getDefaultThresholds : Discipline → FormThresholds
  | Discipline.yoga => ⟨80, 10, 20, 90, 20⟩
  | Discipline.general => ⟨85, 10, 18, 90, 15⟩
  | Discipline.fitness => ⟨90, 10, 15, 90, 15⟩

/-- Point deduction per error severity (`FormValidator.calculateFormScore`). -/
def severityDeduction : Severity → ℝ
  | Severity.critical => 30
  | Severity.high => 20
  | Severity.normal => 10
  | Severity.info => 5

/-- `FormValidator.calculateFormScore`. -/
def calculateFormScore (errors : List FormError) : ℝ :=
  if errors.isEmpty then 100
  else max 0 (100 - (errors.map (fun e => severityDeduction e.severity)).sum)

/-- Fallback landmark for the checked-access model below; it is only ever
used in branches where the corresponding lookup is known to be `some`. -/
def defaultLandmark : Landmark := ⟨0, 0, 0, 0, 0⟩

/-- True when one of the eight landmarks dereferenced by
`PushUpsValidator.validateForm` is absent from the frame. -/
def puMissingRequired (frame : PoseFrame) : Bool :=
  (findLm frame 11).isNone || (findLm frame 12).isNone ||
  (findLm frame 13).isNone || (findLm frame 14).isNone ||
  (findLm frame 15).isNone || (findLm frame 16).isNone ||
  (findLm frame 23).isNone || (findLm frame 24).isNone

/-- `PushUpsValidator.validateForm`.  The source performs no
missing-landmark check: every lookup uses the TypeScript non-null assertion
`find(...)!`, so the first property access on an absent landmark throws a
`TypeError` (`Except.error` branch).  On a complete frame the function is
total and returns the scored result. -/
noncomputable def pushUpsValidateForm (thresholds : FormThresholds)
    (frame : PoseFrame) : Except JsError FormValidationResult :=
  if puMissingRequired frame then Except.error JsError.typeError
  else
    let leftShoulder := (findLm frame 11).getD defaultLandmark
    let rightShoulder := (findLm frame 12).getD defaultLandmark
    let leftElbow := (findLm frame 13).getD defaultLandmark
    let rightElbow := (findLm frame 14).getD defaultLandmark
    let leftWrist := (findLm frame 15).getD defaultLandmark
    let rightWrist := (findLm frame 16).getD defaultLandmark
    let leftHip := (findLm frame 23).getD defaultLandmark
    let rightHip := (findLm frame 24).getD defaultLandmark
    let leftElbowAngle := calculateAngle leftShoulder leftElbow leftWrist
    let rightElbowAngle := calculateAngle rightShoulder rightElbow rightWrist
    let errors1 : List FormError :=
      match leftElbowAngle with
      | some v =>
        if v < thresholds.minElbowBend then
          [⟨FormErrorType.shallow_depth, Severity.normal,
            "Go deeper in the push-up", v, thresholds.minElbowBend,
            "Lower your chest closer to the ground"⟩]
        else []
      | none => []
    let leftElbowFlare := |leftElbow.x - leftShoulder.x|
    let rightElbowFlare := |rightElbow.x - rightShoulder.x|
    let avgFlare := (leftElbowFlare + rightElbowFlare) / 2
    let errors2 := errors1 ++
      (if (0.15 : ℝ) < avgFlare then
        [⟨FormErrorType.elbow_flaring, Severity.high, "Elbows are flaring out",
          avgFlare, 0.15, "Keep your elbows closer to your body"⟩]
       else [])
    let shoulderMidX := (leftShoulder.x + rightShoulder.x) / 2
    let shoulderMidY := (leftShoulder.y + rightShoulder.y) / 2
    let hipMidX := (leftHip.x + rightHip.x) / 2
    let hipMidY := (leftHip.y + rightHip.y) / 2
    let spineAngle := |jsAtan2 (hipMidY - shoulderMidY) (hipMidX - shoulderMidX) * (180 / Real.pi)|
    let errors3 := errors2 ++
      (if thresholds.maxSpineCurvature < spineAngle then
        [⟨FormErrorType.back_rounding, Severity.critical, "Back is not straight",
          spineAngle, thresholds.maxSpineCurvature,
          "Keep your core tight and back straight"⟩]
       else [])
    let shoulderTilt := |leftShoulder.y - rightShoulder.y|
    let errors4 := errors3 ++
      (if (0.05 : ℝ) < shoulderTilt then
        [⟨FormErrorType.asymmetric_movement, Severity.normal,
          "Shoulders are not level", shoulderTilt * 100, 5,
          "Keep your shoulders level"⟩]
       else [])
    let errors5 := errors4 ++
      (match leftElbowAngle, rightElbowAngle with
       | some a, some b =>
         if thresholds.maxAsymmetry < |a - b| then
           [⟨FormErrorType.asymmetric_movement, Severity.high,
             "Uneven arm movement detected", |a - b|, thresholds.maxAsymmetry,
             "Keep both arms moving together"⟩]
         else []
       | _, _ => [])
    let score := calculateFormScore errors5
    Except.ok ⟨score, sortBySeverity errors5, decide (70 ≤ score)⟩

/-- Jumping-jacks threshold table (`JumpingJacksThresholds`). -/
structure JumpingJacksThresholds where
  minArmElevation : ℝ
  minLegSpread : ℝ
  maxShoulderAsymmetry : ℝ
  minArmExtension : ℝ

/-- `FITNESS_THRESHOLDS` of the jumping-jacks validator. -/
def jjFitnessThresholds : JumpingJacksThresholds := ⟨160, 1.8, 15, 150⟩

/-- `YOGA_THRESHOLDS` of the jumping-jacks validator. -/
def jjYogaThresholds : JumpingJacksThresholds := ⟨140, 1.5, 20, 135⟩

/-- `GENERAL_THRESHOLDS` of the jumping-jacks validator (also the
constructor default). -/
def jjGeneralThresholds : JumpingJacksThresholds := ⟨150, 1.6, 18, 140⟩

/-- Threshold selection in the `JumpingJacksValidator` constructor. -/
def jjSelectThresholds : Discipline → JumpingJacksThresholds
  | Discipline.fitness => jjFitnessThresholds
  | Discipline.yoga => jjYogaThresholds
  | Discipline.general => jjGeneralThresholds

/-- `JumpingJacksValidator.calculateArmElevationAngle`. -/
noncomputable def calculateArmElevationAngle (shoulder wrist : Landmark) : ℝ :=
  let dy := shoulder.y - wrist.y
  let dx := |wrist.x - shoulder.x|
  jsAtan2 dy dx * 180 / Real.pi

/-- True when one of the ten landmarks required by
`JumpingJacksValidator.validateForm` is absent (the guard at the top of the
function). -/
def jjMissingRequired (frame : PoseFrame) : Bool :=
  (findLm frame 11).isNone || (findLm frame 12).isNone ||
  (findLm frame 13).isNone || (findLm frame 14).isNone ||
  (findLm frame 15).isNone || (findLm frame 16).isNone ||
  (findLm frame 23).isNone || (findLm frame 24).isNone ||
  (findLm frame 27).isNone || (findLm frame 28).isNone

/-- The result returned by `JumpingJacksValidator.validateForm` when a
required landmark is missing: score 0, a single `POSE_INCOMPLETE` error of
severity HIGH, `isAcceptable: false`. -/
def jjPoseIncompleteResult : FormValidationResult :=
  ⟨0,
   [⟨FormErrorType.pose_incomplete, Severity.high,
     "Unable to detect full body pose", 0, 0,
     "Ensure the camera captures your full body"⟩],
   false⟩

/-- `JumpingJacksValidator.validateForm`. -/
noncomputable def jjValidateForm (thresholds : JumpingJacksThresholds)
    (frame : PoseFrame) : FormValidationResult :=
  if jjMissingRequired frame then jjPoseIncompleteResult
  else
    let leftShoulder := (findLm frame 11).getD defaultLandmark
    let rightShoulder := (findLm frame 12).getD defaultLandmark
    let leftElbow := (findLm frame 13).getD defaultLandmark
    let rightElbow := (findLm frame 14).getD defaultLandmark
    let leftWrist := (findLm frame 15).getD defaultLandmark
    let rightWrist := (findLm frame 16).getD defaultLandmark
    let leftHip := (findLm frame 23).getD defaultLandmark
    let rightHip := (findLm frame 24).getD defaultLandmark
    let leftAnkle := (findLm frame 27).getD defaultLandmark
    let rightAnkle := (findLm frame 28).getD defaultLandmark
    let leftArmAngle := calculateArmElevationAngle leftShoulder leftWrist
    let rightArmAngle := calculateArmElevationAngle rightShoulder rightWrist
    let avgArmAngle := (leftArmAngle + rightArmAngle) / 2
    let deduct1 : ℝ := if avgArmAngle < thresholds.minArmElevation then 25 else 0
    let errors1 : List FormError :=
      if avgArmAngle < thresholds.minArmElevation then
        [⟨FormErrorType.shallow_depth, Severity.normal,
          "Raise your arms higher overhead", avgArmAngle,
          thresholds.minArmElevation,
          "Lift both arms until they are vertical above your head"⟩]
      else []
    let leftArmExtension := calculateAngle leftShoulder leftElbow leftWrist
    let rightArmExtension := calculateAngle rightShoulder rightElbow rightWrist
    let minArmExtension : Option ℝ :=
      match leftArmExtension, rightArmExtension with
      | some a, some b => some (min a b)
      | _, _ => none
    let extensionLow : Bool :=
      match minArmExtension with
      | some m => decide (m < thresholds.minArmExtension)
      | none => false
    let deduct2 : ℝ := if extensionLow then 15 else 0
    let errors2 : List FormError := errors1 ++
      (match minArmExtension with
       | some m =>
         if m < thresholds.minArmExtension then
           [⟨FormErrorType.incorrect_joint_angle, Severity.normal,
             "Straighten your arms more during the movement", m,
             thresholds.minArmExtension,
             "Extend your elbows fully as you reach overhead"⟩]
         else []
       | none => [])
    let shoulderAsymmetry := |leftArmAngle - rightArmAngle|
    let deduct3 : ℝ := if thresholds.maxShoulderAsymmetry < shoulderAsymmetry then 15 else 0
    let errors3 := errors2 ++
      (if thresholds.maxShoulderAsymmetry < shoulderAsymmetry then
        [⟨FormErrorType.asymmetric_movement, Severity.normal,
          "Keep both arms at the same height", shoulderAsymmetry,
          thresholds.maxShoulderAsymmetry,
          "Raise both arms evenly to match height"⟩]
       else [])
    let shoulderWidth := calculateDistance3D leftShoulder rightShoulder
    let legSpread := calculateDistance3D leftAnkle rightAnkle
    let spreadRel : Option ℝ :=
      if shoulderWidth = 0 then none else some (legSpread / shoulderWidth)
    let spreadLow : Bool :=
      match spreadRel with
      | some r => decide (r < thresholds.minLegSpread)
      | none => false
    let deduct4 : ℝ := if spreadLow then 20 else 0
    let errors4 := errors3 ++
      (match spreadRel with
       | some r =>
         if r < thresholds.minLegSpread then
           [⟨FormErrorType.shallow_depth, Severity.normal,
             "Jump your feet wider apart", r, thresholds.minLegSpread,
             "Land with your feet wider than shoulder width"⟩]
         else []
       | none => [])
    let hipTilt := |leftHip.y - rightHip.y|
    let deduct5 : ℝ := if (0.05 : ℝ) < hipTilt then 10 else 0
    let errors5 := errors4 ++
      (if (0.05 : ℝ) < hipTilt then
        [⟨FormErrorType.asymmetric_movement, Severity.normal,
          "Keep your hips level during the jump", hipTilt * 100, 5,
          "Engage your core to prevent hip tilting side to side"⟩]
       else [])
    let score := max 0 (100 - deduct1 - deduct2 - deduct3 - deduct4 - deduct5)
    ⟨score, sortBySeverity errors5, decide (70 ≤ score)⟩

/-! ## Concrete frames used as failing inputs and witnesses -/

/-- Landmark literal helper (visibility 1). -/
def lm (id : ℕ) (x y z : ℝ) : Landmark := ⟨id, x, y, z, 1⟩

/-- A frame whose landmark list is empty. -/
def noLandmarkFrame : PoseFrame := ⟨0, [], 1⟩

/-- A frame carrying eleven core landmarks; the right wrist (id 16) is
missing. -/
def frameMissingRightWrist : PoseFrame :=
  ⟨0,
   [lm 11 0.4 0.3 0, lm 12 0.6 0.3 0, lm 13 0.35 0.45 0, lm 14 0.65 0.45 0,
    lm 15 0.3 0.6 0, lm 23 0.45 0.6 0, lm 24 0.55 0.6 0, lm 25 0.45 0.75 0,
    lm 26 0.55 0.75 0, lm 27 0.45 0.9 0, lm 28 0.55 0.9 0],
   1⟩

/-- A frame carrying eleven core landmarks; the left wrist (id 15) is
missing. -/
def frameMissingLeftWrist : PoseFrame :=
  ⟨0,
   [lm 11 0.4 0.3 0, lm 12 0.6 0.3 0, lm 13 0.35 0.45 0, lm 14 0.65 0.45 0,
    lm 16 0.7 0.6 0, lm 23 0.45 0.6 0, lm 24 0.55 0.6 0, lm 25 0.45 0.75 0,
    lm 26 0.55 0.75 0, lm 27 0.45 0.9 0, lm 28 0.55 0.9 0],
   1⟩

/-- A degenerate landmark triple: all three points coincide. -/
def degLandmark : Landmark := ⟨13, 0.5, 0.5, 0, 1⟩

/-- C9: `calculateAngle` on a degenerate input (both vectors of zero length)
returns NaN — modelled as `none` — instead of the defined sentinel value in
[0, 180] promised by the specification: the JS code computes
`acos(0 / (0 * 0)) = acos(NaN) = NaN` and lets it propagate. -/
theorem calculateAngle_degenerate_nan :
    calculateAngle degLandmark degLandmark degLandmark = none := by
  unfold calculateAngle degLandmark
  norm_num

/-- C2: on a frame missing a required landmark the push-ups rep detector does
not return null; the unguarded `find(...)!` lookup followed by a property
access inside `calculateAngle` throws a `TypeError`. -/
theorem repDetector_missing_landmark_throws :
    processFrame (initDetector ExerciseType.push_ups) frameMissingLeftWrist =
      Except.error JsError.typeError ∧
    processFrame (initDetector ExerciseType.push_ups) noLandmarkFrame =
      Except.error JsError.typeError := by
  constructor <;> rfl

/-- C1 counterexample: on a frame missing the right wrist the jumping-jacks
validator does return a single pose-incomplete error, but its severity is
HIGH, not CRITICAL — and the push-ups validator throws instead of returning
any `FormValidationResult` at all. -/
theorem validator_pose_incomplete_counterexample :
    (jjValidateForm jjGeneralThresholds frameMissingRightWrist).errors.map
        FormError.severity = [Severity.high] ∧
    Severity.high ≠ Severity.critical ∧
    pushUpsValidateForm (getDefaultThresholds Discipline.fitness)
        frameMissingRightWrist = Except.error JsError.typeError := by
  refine ⟨?_, by decide, ?_⟩ <;> rfl

/-- C1 (amended): for every frame missing a required landmark, the
jumping-jacks validator returns score 0, exactly one error of type
`pose_incomplete` with severity HIGH, and `isAcceptable = false`, without
throwing; the push-ups validator performs no such guard and instead throws a
`TypeError` on every frame missing one of its eight required landmarks. -/
theorem validator_pose_incomplete_amended :
    (∀ (th : JumpingJacksThresholds) (frame : PoseFrame),
        jjMissingRequired frame = true →
        jjValidateForm th frame = jjPoseIncompleteResult) ∧
    (∀ (th : FormThresholds) (frame : PoseFrame),
        puMissingRequired frame = true →
        pushUpsValidateForm th frame = Except.error JsError.typeError) ∧
    jjPoseIncompleteResult.score = 0 ∧
    jjPoseIncompleteResult.errors.map (fun e => (e.type, e.severity)) =
      [(FormErrorType.pose_incomplete, Severity.high)] ∧
    jjPoseIncompleteResult.isAcceptable = false := by
  refine ⟨?_, ?_, rfl, rfl, rfl⟩
  · intro th frame h
    simp [jjValidateForm, h]
  · intro th frame h
    simp [pushUpsValidateForm, h]

/-- C1 witness: the amended statement evaluated on the concrete frame missing
the right wrist. -/
theorem validator_pose_incomplete_witness :
    jjMissingRequired frameMissingRightWrist = true ∧
    puMissingRequired frameMissingRightWrist = true ∧
    jjValidateForm jjYogaThresholds frameMissingRightWrist =
      jjPoseIncompleteResult ∧
    pushUpsValidateForm (getDefaultThresholds Discipline.general)
      frameMissingRightWrist = Except.error JsError.typeError :=
  ⟨by rfl, by rfl,
   validator_pose_incomplete_amended.1 jjYogaThresholds frameMissingRightWrist (by rfl),
   validator_pose_incomplete_amended.2.1 (getDefaultThresholds Discipline.general)
     frameMissingRightWrist (by rfl)⟩

/-! ## coaching-engine: feedback data types (`types/feedback.types.ts`) -/

/-- `FeedbackType` enum. -/
inductive FeedbackType
  | corrective
  | motivational
  | instructional
  | warning
  | confirmation
  deriving DecidableEq

/-- `Modality` enum. -/
inductive Modality
  | voice
  | visual
  | haptic
  deriving DecidableEq

/-- `TTSStatus` enum. -/
inductive TTSStatus
  | queued
  | speaking
  | completed
  | skipped
  | failed
  deriving DecidableEq

/-- `TriggerCondition` interface. -/
structure TriggerCondition where
  rule : String
  measuredValue : ℚ
  threshold : ℚ
  deriving DecidableEq

/-- `FeedbackPrompt` interface.  The ISO-8601 `triggeredAt` string is modelled
by its epoch-millisecond value (the code only ever reads it back through
`new Date(f.triggeredAt).getTime()`); the random unique suffix of `id` is
elided. -/
structure FeedbackPrompt where
  id : String
  message : String
  type : FeedbackType
  severity : Severity
  modality : List Modality
  triggeredAt : ℚ
  triggerCondition : TriggerCondition
  ttsStatus : TTSStatus
  repNumber : Option ℕ
  deriving DecidableEq

/-! ## Phrase tables (`feedback/prompts.ts`) -/

/-- `CORRECTIVE_PROMPTS`. -/
def correctivePrompts : List (String × String) :=
  [("knee_valgus", "Keep your knees out"),
   ("knee_depth", "Go lower"),
   ("back_rounding", "Straighten your back"),
   ("lower_back_arch", "Tighten your core"),
   ("elbow_flaring", "Tuck your elbows in"),
   ("shoulder_hunch", "Shoulders back and down"),
   ("shallow_depth", "Deeper movement"),
   ("incomplete_extension", "Fully extend"),
   ("asymmetric_left", "Even out your left side"),
   ("asymmetric_right", "Even out your right side"),
   ("too_close", "Step back from camera"),
   ("too_far", "Move closer to camera"),
   ("neck_forward", "Keep your neck neutral"),
   ("too_fast", "Slow down your tempo"),
   ("too_slow", "Pick up the pace"),
   ("hold_position", "Hold this position"),
   ("good_form", "Good form"),
   ("reset_position", "Reset your position")]

/-- `WARNING_PROMPTS`. -/
def warningPrompts : List (String × String) :=
  [("unsafe_form", "Stop! Unsafe form detected"),
   ("injury_risk", "Risk of injury, please adjust"),
   ("take_break", "Take a break if needed"),
   ("check_form", "Check your form"),
   ("move_into_frame", "Move back into frame")]

/-- `MOTIVATIONAL_PROMPTS` of `prompts.ts`. -/
def motivationalPrompts : List (String × String) :=
  [("great_form", "Great form! Keep it up!"),
   ("doing_amazing", "You\x27re doing amazing!"),
   ("halfway", "Halfway there! Stay strong!"),
   ("perfect_technique", "Perfect technique!"),
   ("almost_done", "Almost done! Finish strong!"),
   ("excellent_work", "Excellent work!"),
   ("steady_pace", "Nice steady pace!"),
   ("form_improving", "Your form is improving!"),
   ("last_few", "Last few reps! You got this!"),
   ("session_complete", "Session complete! Well done!")]

/-- `getPrompt(category, key)`: table lookup with the key itself as the JS
`|| key` fallback. -/
def getPrompt (category : String) (key : String) : String :=
  if category = "corrective" then (correctivePrompts.lookup key).getD key
  else if category = "warning" then (warningPrompts.lookup key).getD key
  else if category = "motivational" then (motivationalPrompts.lookup key).getD key
  else key

/-- Every message text present in one of the three phrase tables. -/
def allPhraseMessages : List String :=
  (correctivePrompts ++ warningPrompts ++ motivationalPrompts).map Prod.snd

/-! ## Feedback generator (`feedback/feedback-generator.ts`) -/

/-- The coaching-engine-local `FormError` interface: `type` and `severity`
are plain strings there. -/
structure CFormError where
  type : String
  severity : String
  description : String
  measuredValue : ℚ
  threshold : ℚ
  correction : String
  deriving DecidableEq

/-- The coaching-engine-local `FormValidationResult` interface
(`measurements: unknown` omitted). -/
structure CFormResult where
  score : ℚ
  errors : List CFormError
  isAcceptable : Bool
  deriving DecidableEq

/-- `SessionContext` interface. -/
structure SessionContext where
  recentFeedback : List FeedbackPrompt
  durationSeconds : ℚ
  repCount : ℕ
  deriving DecidableEq

/-- `errorKeyMap` of `FeedbackGenerator.getMessageForError`. -/
def errorKeyMap : List (String × String) :=
  [("knee_valgus", "knee_valgus"),
   ("back_rounding", "back_rounding"),
   ("elbow_flaring", "elbow_flaring"),
   ("shallow_depth", "shallow_depth"),
   ("asymmetric_movement", "asymmetric_left"),
   ("neck_misalignment", "neck_forward")]

/-- `FeedbackGenerator.getMessageForError`: unmapped error types fall back to
the key string `check_form`, which is then looked up in the CORRECTIVE table
only. -/
def getMessageForError (errorType : String) : String :=
  getPrompt "corrective" ((errorKeyMap.lookup errorType).getD "check_form")

/-- `DEDUP_WINDOW_MS` (5 seconds). -/
def DEDUP_WINDOW_MS : ℚ := 5000

/-- The `recentMessages` set computed at the top of `generateFeedback`:
messages of prompts triggered within the deduplication window. -/
def recentMessages (ctx : SessionContext) (nowMs : ℚ) : List String :=
  (ctx.recentFeedback.filter
    (fun f => decide (nowMs - f.triggeredAt < DEDUP_WINDOW_MS))).map
    FeedbackPrompt.message

/-- `FeedbackGenerator.mapSeverity`. -/
def mapSeverity (severity : String) : Severity :=
  if severity = "critical" then Severity.critical
  else if severity = "high" then Severity.high
  else if severity = "normal" then Severity.normal
  else Severity.info

/-- Construction of the corrective `FeedbackPrompt` inside the loop of
`generateFeedback`. -/
def mkCorrectivePrompt (e : CFormError) (message : String)
    (ctx : SessionContext) (nowMs : ℚ) : FeedbackPrompt :=
  ⟨"feedback", message, FeedbackType.corrective, mapSeverity e.severity,
   [Modality.voice, Modality.visual], nowMs,
   ⟨e.type, e.measuredValue, e.threshold⟩, TTSStatus.queued, some ctx.repCount⟩

/-- The error loop of `generateFeedback`: skip a recently-reported message
unless the error is critical; stop as soon as one prompt has been pushed. -/
def pickFeedback (ctx : SessionContext) (nowMs : ℚ) (recent : List String) :
    List CFormError → List FeedbackPrompt
  | [] => []
  | e :: rest =>
    let message := getMessageForError e.type
    if message ∈ recent ∧ e.severity ≠ "critical" then
      pickFeedback ctx nowMs recent rest
    else [mkCorrectivePrompt e message ctx nowMs]

/-- `FeedbackGenerator.generateFeedback`. -/
def generateFeedback (formResult : CFormResult) (ctx : SessionContext)
    (nowMs : ℚ) : List FeedbackPrompt :=
  if formResult.errors.isEmpty then []
  else pickFeedback ctx nowMs (recentMessages ctx nowMs) formResult.errors

/-- Severity rank on the string severities of the coaching-engine
`FormError`, mirroring the validator sort order. -/
def cSeverityRank (s : String) : ℕ :=
  if s = "critical" then 0
  else if s = "high" then 1
  else if s = "normal" then 2
  else if s = "info" then 3
  else 4

/-- Helper: along a severity-sorted chain the head has minimal rank among
later members. -/
theorem rank_head_le_mem :
    ∀ (t : List CFormError) (h e : CFormError),
      List.Chain' (fun a b => cSeverityRank a.severity ≤ cSeverityRank b.severity) (h :: t) →
      e ∈ t → cSeverityRank h.severity ≤ cSeverityRank e.severity := by
  intro t
  induction t with
  | nil => intro h e _ he; cases he
  | cons x xs ih =>
    intro h e hchain he
    have hx := List.chain'_cons.mp hchain
    rcases List.mem_cons.mp he with rfl | he
    · exact hx.1
    · exact le_trans hx.1 (ih x e hx.2 he)

/-- Helper: a rank-zero string severity is exactly the string `critical`. -/
theorem rank_zero_critical (s : String) (h : cSeverityRank s = 0) :
    s = "critical" := by
  unfold cSeverityRank at h
  split_ifs at h
  assumption

/-- Helper: a severity-sorted error list containing a critical error starts
with a critical error. -/
theorem sorted_head_critical (errors : List CFormError)
    (hs : List.Chain' (fun a b => cSeverityRank a.severity ≤ cSeverityRank b.severity) errors)
    (he : ∃ e ∈ errors, e.severity = "critical") :
    ∃ e rest, errors = e :: rest ∧ e.severity = "critical" := by
  obtain ⟨e, hmem, hcrit⟩ := he
  cases errors with
  | nil => cases hmem
  | cons h t =>
    refine ⟨h, t, rfl, ?_⟩
    rcases List.mem_cons.mp hmem with rfl | hmem
    · exact hcrit
    · have hle := rank_head_le_mem t h e hs hmem
      rw [hcrit] at hle
      simp only [cSeverityRank, if_pos rfl] at hle
      exact rank_zero_critical _ (Nat.le_zero.mp hle)

/-- Helper: the feedback loop never re-emits a recently delivered message
unless the originating error is critical. -/
theorem pickFeedback_recent_critical (ctx : SessionContext) (nowMs : ℚ)
    (recent : List String) :
    ∀ (errors : List CFormError) (p : FeedbackPrompt),
      p ∈ pickFeedback ctx nowMs recent errors →
      p.message ∈ recent → p.severity = Severity.critical := by
  intro errors
  induction errors with
  | nil => intro p hp; cases hp
  | cons e rest ih =>
    intro p hp hmem
    by_cases hc : getMessageForError e.type ∈ recent ∧ e.severity ≠ "critical"
    · rw [pickFeedback, if_pos hc] at hp
      exact ih p hp hmem
    · rw [pickFeedback, if_neg hc] at hp
      have hpe := List.mem_singleton.mp hp
      subst hpe
      have hmsg : (mkCorrectivePrompt e (getMessageForError e.type) ctx nowMs).message =
          getMessageForError e.type := rfl
      rw [hmsg] at hmem
      push_neg at hc
      have hcrit := hc hmem
      show mapSeverity e.severity = Severity.critical
      rw [hcrit]
      rfl

/-- C5: the feedback generator (a) never emits a prompt whose message was
already delivered inside the 5000 ms deduplication window unless the
originating error is CRITICAL, and (b) on a severity-sorted error list
containing a CRITICAL error it always emits exactly the prompt for the
leading critical error, regardless of recent repetition. -/
theorem feedback_dedup_critical_bypass :
    (∀ (formResult : CFormResult) (ctx : SessionContext) (nowMs : ℚ)
       (p : FeedbackPrompt),
        p ∈ generateFeedback formResult ctx nowMs →
        p.message ∈ recentMessages ctx nowMs →
        p.severity = Severity.critical) ∧
    (∀ (formResult : CFormResult) (ctx : SessionContext) (nowMs : ℚ),
        List.Chain' (fun a b => cSeverityRank a.severity ≤ cSeverityRank b.severity)
          formResult.errors →
        (∃ e ∈ formResult.errors, e.severity = "critical") →
        ∃ e, formResult.errors.head? = some e ∧ e.severity = "critical" ∧
          generateFeedback formResult ctx nowMs =
            [mkCorrectivePrompt e (getMessageForError e.type) ctx nowMs] ∧
          (mkCorrectivePrompt e (getMessageForError e.type) ctx nowMs).severity =
            Severity.critical) := by
  constructor
  · intro fr ctx nowMs p hp hmem
    unfold generateFeedback at hp
    split at hp
    · cases hp
    · exact pickFeedback_recent_critical ctx nowMs (recentMessages ctx nowMs)
        fr.errors p hp hmem
  · intro fr ctx nowMs hs he
    obtain ⟨e, rest, herr, hcrit⟩ := sorted_head_critical fr.errors hs he
    refine ⟨e, by rw [herr]; rfl, hcrit, ?_, ?_⟩
    · unfold generateFeedback
      rw [herr]
      rw [if_neg (by simp)]
      rw [pickFeedback, if_neg (by simp [hcrit])]
    · show mapSeverity e.severity = Severity.critical
      rw [hcrit]
      rfl

/-- Concrete critical form error used as the C5 witness input. -/
def errC5 : CFormError :=
  ⟨"back_rounding", "critical", "Back is not straight", 25, 15,
   "Keep your core tight and back straight"⟩

/-- A prompt delivered 2000 ms before the C5 witness call, carrying the
same message the critical error maps to. -/
def promptC5prev : FeedbackPrompt :=
  ⟨"feedback", "Straighten your back", FeedbackType.corrective,
   Severity.critical, [Modality.voice, Modality.visual], 8000,
   ⟨"back_rounding", 25, 15⟩, TTSStatus.completed, some 3⟩

/-- Session context of the C5 witness. -/
def ctxC5 : SessionContext := ⟨[promptC5prev], 60, 4⟩

/-- Validation result of the C5 witness. -/
def frC5 : CFormResult := ⟨40, [errC5], false⟩

/-- C5 witness: both halves of the deduplication theorem instantiated on a
concrete repeat of a critical message 2000 ms after its first delivery. -/
theorem feedback_dedup_witness :
    ((mkCorrectivePrompt errC5 (getMessageForError errC5.type) ctxC5 10000).severity
        = Severity.critical) ∧
    (∃ e, frC5.errors.head? = some e ∧ e.severity = "critical" ∧
      generateFeedback frC5 ctxC5 10000 =
        [mkCorrectivePrompt e (getMessageForError e.type) ctxC5 10000] ∧
      (mkCorrectivePrompt e (getMessageForError e.type) ctxC5 10000).severity =
        Severity.critical) := by
  have hrecent : recentMessages ctxC5 10000 = ["Straighten your back"] := by
    norm_num [recentMessages, ctxC5, promptC5prev, DEDUP_WINDOW_MS]
  have hgen : generateFeedback frC5 ctxC5 10000 =
      [mkCorrectivePrompt errC5 (getMessageForError errC5.type) ctxC5 10000] := by
    simp [generateFeedback, pickFeedback, frC5, errC5]
  refine ⟨?_, ?_⟩
  · exact feedback_dedup_critical_bypass.1 frC5 ctxC5 10000
      (mkCorrectivePrompt errC5 (getMessageForError errC5.type) ctxC5 10000)
      (hgen ▸ List.mem_singleton.mpr rfl)
      (by rw [hrecent]; exact List.mem_singleton.mpr rfl)
  · exact feedback_dedup_critical_bypass.2 frC5 ctxC5 10000
      (List.chain'_singleton errC5) ⟨errC5, by simp [frC5], rfl⟩

/-- C8: for an error type absent from `errorKeyMap` (such as
`pose_incomplete`, which the validators really produce) the generator emits
the literal key string `check_form` — a string that is not a message of any
phrase table; the intended phrase `Check your form` lives in the WARNING
table that `getMessageForError` never consults. -/
theorem unmapped_error_fallback_not_in_table :
    getMessageForError "pose_incomplete" = "check_form" ∧
    "check_form" ∉ allPhraseMessages ∧
    warningPrompts.lookup "check_form" = some "Check your form" := by
  refine ⟨rfl, by decide, rfl⟩

/-! ## Motivation engine (`motivation/motivation-engine.ts`) -/

/-- A JavaScript number restricted to the values reachable by the milestone
percentage computation: a rational, positive/negative infinity (division of a
nonzero value by zero) or NaN (0/0). -/
inductive JsNumQ
  | num (q : ℚ)
  | posInf
  | negInf
  | nan
  deriving DecidableEq

/-- JavaScript division on rationals, retaining the IEEE behaviour for a zero
denominator. -/
def jsDivQ (a b : ℚ) : JsNumQ :=
  if b = 0 then (if a = 0 then JsNumQ.nan else if 0 < a then JsNumQ.posInf else JsNumQ.negInf)
  else JsNumQ.num (a / b)

/-- Multiplication of a `JsNumQ` by the positive literal 100 (the `* 100` of
the percentage computation). -/
def jsNumScale100 : JsNumQ → JsNumQ
  | JsNumQ.num q => JsNumQ.num (q * 100)
  | x => x

/-- JavaScript `>=` against a natural-number milestone; NaN compares false. -/
def jsGeNat (x : JsNumQ) (m : ℕ) : Bool :=
  match x with
  | JsNumQ.num q => decide ((m : ℚ) ≤ q)
  | JsNumQ.posInf => true
  | JsNumQ.negInf => false
  | JsNumQ.nan => false

/-- `MilestoneConfig` interface. -/
structure MilestoneConfig where
  percentages : List ℕ
  streakThreshold : ℕ
  deriving DecidableEq

/-- `DEFAULT_MILESTONES`. -/
def defaultMilestones : MilestoneConfig := ⟨[25, 50, 75, 100], 5⟩

/-- `MOTIVATIONAL_PROMPTS.milestone25` of `motivation-engine.ts`. -/
def motMilestone25 : String := "Great start! You\x27re 25% done. Keep it up!"

/-- `MOTIVATIONAL_PROMPTS.milestone50`. -/
def motMilestone50 : String := "Halfway there! You\x27re doing amazing!"

/-- `MOTIVATIONAL_PROMPTS.milestone75`. -/
def motMilestone75 : String := "Almost done! Just 25% more to go!"

/-- `MOTIVATIONAL_PROMPTS.milestone100`. -/
def motMilestone100 : String := "Excellent work! You\x27ve completed your set!"

/-- `MOTIVATIONAL_PROMPTS.streak5`. -/
def motStreak5 : String := "Five in a row with perfect form! Outstanding!"

/-- `MOTIVATIONAL_PROMPTS.streak10`. -/
def motStreak10 : String := "Ten perfect reps! You\x27re on fire!"

/-- `MOTIVATIONAL_PROMPTS.encouragement`. -/
def motEncouragement : String := "You\x27ve got this! Stay focused!"

/-- The `MotivationEngine` instance fields. -/
structure MotivationEngine where
  config : MilestoneConfig
  triggeredMilestones : List ℕ
  currentStreak : ℕ
  lastStreakMilestone : ℕ
  deriving DecidableEq

/-- A freshly constructed `MotivationEngine` with the default configuration
(also the post-`reset()` state). -/
def initMotivationEngine : MotivationEngine := ⟨defaultMilestones, [], 0, 0⟩

/-- `MotivationEngine.checkMilestone`: fires a streak prompt when the current
streak has reached the threshold and strictly exceeds the last celebrated
streak length, recording the new celebrated length.  The `Date.now()` suffix
of the prompt id is elided; `nowMs` models the trigger timestamp. -/
def checkMilestone (me : MotivationEngine) (currentReps : ℕ) (nowMs : ℚ) :
    MotivationEngine × Option FeedbackPrompt :=
  if me.config.streakThreshold ≤ me.currentStreak ∧
      me.lastStreakMilestone < me.currentStreak then
    let message := if 10 ≤ me.currentStreak then motStreak10 else motStreak5
    ({ me with lastStreakMilestone := me.currentStreak },
     some ⟨"motivation-streak", message, FeedbackType.motivational,
           Severity.normal, [Modality.voice, Modality.visual], nowMs,
           ⟨"good_form_streak", (me.currentStreak : ℚ),
            (me.config.streakThreshold : ℚ)⟩,
           TTSStatus.queued, some currentReps⟩)
  else (me, none)

/-- `MotivationEngine.createMotivationalPrompt`. -/
def createMotivationalPrompt (milestone : ℕ) (repNumber : ℕ) (nowMs : ℚ) :
    FeedbackPrompt :=
  let message :=
    if milestone = 25 then motMilestone25
    else if milestone = 50 then motMilestone50
    else if milestone = 75 then motMilestone75
    else if milestone = 100 then motMilestone100
    else motEncouragement
  ⟨"motivation-milestone", message, FeedbackType.motivational, Severity.info,
   [Modality.voice, Modality.visual], nowMs,
   ⟨"milestone_percentage_reached", (milestone : ℚ), (milestone : ℚ)⟩,
   TTSStatus.queued, some repNumber⟩

/-- The `for (const milestone of this.config.percentages)` loop: the first
milestone that is both reached and not yet triggered. -/
def firstUntriggered (percentage : JsNumQ) (triggered : List ℕ) :
    List ℕ → Option ℕ
  | [] => none
  | m :: rest =>
    if jsGeNat percentage m && !(triggered.contains m) then some m
    else firstUntriggered percentage triggered rest

/-- `MotivationEngine.generateMotivation`. -/
def generateMotivation (me : MotivationEngine) (currentReps targetReps : ℕ)
    (lastRepFormScore : ℚ) (nowMs : ℚ) :
    MotivationEngine × Option FeedbackPrompt :=
  let me1 :=
    if (70 : ℚ) ≤ lastRepFormScore then
      { me with currentStreak := me.currentStreak + 1 }
    else { me with currentStreak := 0 }
  let step := checkMilestone me1 currentReps nowMs
  match step.2 with
  | some p => (step.1, some p)
  | none =>
    let percentageComplete :=
      jsNumScale100 (jsDivQ (currentReps : ℚ) (targetReps : ℚ))
    match firstUntriggered percentageComplete step.1.triggeredMilestones
        step.1.config.percentages with
    | some m =>
      ({ step.1 with triggeredMilestones := step.1.triggeredMilestones ++ [m] },
       some (createMotivationalPrompt m currentReps nowMs))
    | none => (step.1, none)

/-- Sequential calls to `generateMotivation`, one triple
(currentReps, targetReps, lastRepFormScore) per accepted rep, collecting each
returned prompt; trigger timestamps are taken as 0. -/
def processCalls (me : MotivationEngine) :
    List (ℕ × ℕ × ℚ) → MotivationEngine × List (Option FeedbackPrompt)
  | [] => (me, [])
  | c :: rest =>
    let step := generateMotivation me c.1 c.2.1 c.2.2 0
    let tail := processCalls step.1 rest
    (tail.1, step.2 :: tail.2)

/-- The call list of a session of `n` consecutive good reps towards a target
of `target` reps with per-rep form scores `s`. -/
def goodRepCalls (n target : ℕ) (s : ℕ → ℚ) : List (ℕ × ℕ × ℚ) :=
  (List.range n).map (fun i => (i + 1, target, s (i + 1)))

/-- The engine state after `n` consecutive good reps from a fresh engine. -/
def stateAfter (n : ℕ) : MotivationEngine :=
  ⟨defaultMilestones, [], n, if 5 ≤ n then n else 0⟩

/-- The streak prompt emitted at streak length `k`. -/
def streakPrompt (k currentReps : ℕ) (nowMs : ℚ) : FeedbackPrompt :=
  ⟨"motivation-streak", if 10 ≤ k then motStreak10 else motStreak5,
   FeedbackType.motivational, Severity.normal,
   [Modality.voice, Modality.visual], nowMs,
   ⟨"good_form_streak", (k : ℚ), ((5 : ℕ) : ℚ)⟩, TTSStatus.queued,
   some currentReps⟩

/-- Helper: one good-rep call from the canonical state increments the streak
and fires a streak prompt exactly when the new streak length is at least 5,
provided the completion percentage stays below the first milestone. -/
theorem generateMotivation_goodRep (n target : ℕ) (score nowMs : ℚ)
    (hscore : 70 ≤ score) (htarget : 4 * (n + 1) < target) :
    generateMotivation (stateAfter n) (n + 1) target score nowMs =
      (stateAfter (n + 1),
       if 5 ≤ n + 1 then some (streakPrompt (n + 1) (n + 1) nowMs) else none) := by
  have hlt : (if 5 ≤ n then n else 0) < n + 1 := by split <;> omega
  by_cases h5 : 5 ≤ n + 1
  · unfold generateMotivation checkMilestone stateAfter streakPrompt
    dsimp only [defaultMilestones]
    rw [if_pos hscore, if_pos ⟨h5, hlt⟩]
    dsimp only
    simp only [if_pos h5]
  · have htpos : (0 : ℚ) < (target : ℚ) := by
      have : 0 < target := by omega
      exact_mod_cast this
    have hq : ((n + 1 : ℕ) : ℚ) / (target : ℚ) * 100 < 25 := by
      have hc : 4 * ((n : ℚ) + 1) < (target : ℚ) := by exact_mod_cast htarget
      rw [div_mul_eq_mul_div, div_lt_iff₀ htpos]
      push_cast
      linarith
    have hge : ∀ m : ℕ, 25 ≤ m →
        jsGeNat (JsNumQ.num (((n + 1 : ℕ) : ℚ) / (target : ℚ) * 100)) m = false := by
      intro m hm
      simp only [jsGeNat, decide_eq_false_iff_not]
      refine not_le.mpr (lt_of_lt_of_le hq ?_)
      exact_mod_cast hm
    unfold generateMotivation checkMilestone stateAfter
    dsimp only [defaultMilestones]
    rw [if_pos hscore, if_neg (fun hc => h5 hc.1), if_neg h5]
    have hdiv : jsDivQ ((n + 1 : ℕ) : ℚ) ((target : ℕ) : ℚ) =
        JsNumQ.num (((n + 1 : ℕ) : ℚ) / (target : ℚ)) := by
      unfold jsDivQ
      rw [if_neg (ne_of_gt htpos)]
    dsimp only
    rw [hdiv]
    unfold jsNumScale100
    have hnone : ∀ ms : List ℕ, (∀ m ∈ ms, 25 ≤ m) →
        firstUntriggered (JsNumQ.num (((n + 1 : ℕ) : ℚ) / (target : ℚ) * 100))
          [] ms = none := by
      intro ms
      induction ms with
      | nil => intro _; rfl
      | cons m rest ih =>
        intro hms
        rw [firstUntriggered, hge m (hms m (List.mem_cons_self m rest))]
        simp only [Bool.false_and, Bool.false_eq_true, if_false]
        exact ih (fun x hx => hms x (List.mem_cons_of_mem m hx))
    have hz : (if 5 ≤ n then n else 0) = 0 := by
      rw [if_neg]
      omega
    rw [hz, hnone [25, 50, 75, 100] (by norm_num)]
    dsimp only
    rw [if_neg h5]

/-- Helper: `processCalls` distributes over list append. -/
theorem processCalls_append (l1 l2 : List (ℕ × ℕ × ℚ)) :
    ∀ me : MotivationEngine,
      processCalls me (l1 ++ l2) =
        ((processCalls (processCalls me l1).1 l2).1,
         (processCalls me l1).2 ++ (processCalls (processCalls me l1).1 l2).2) := by
  induction l1 with
  | nil => intro me; rfl
  | cons c rest ih =>
    intro me
    simp only [List.cons_append, processCalls, List.append_eq]
    rw [ih]

/-- Helper: a fresh engine driven by `n` consecutive good reps (all scores at
least 70, completion percentage below the 25% milestone throughout) ends in
the canonical state and emits a streak prompt on every rep from the fifth
onwards. -/
theorem processCalls_goodReps (n target : ℕ) (s : ℕ → ℚ)
    (htarget : 4 * n < target) (hscore : ∀ k, 1 ≤ k → k ≤ n → 70 ≤ s k) :
    processCalls initMotivationEngine (goodRepCalls n target s) =
      (stateAfter n,
       (List.range n).map (fun i =>
         if 5 ≤ i + 1 then some (streakPrompt (i + 1) (i + 1) 0) else none)) := by
  induction n with
  | zero => rfl
  | succ m ih =>
    have htm : 4 * m < target := by omega
    have hsm : ∀ k, 1 ≤ k → k ≤ m → 70 ≤ s k := fun k h1 h2 => hscore k h1 (by omega)
    have hsplit : goodRepCalls (m + 1) target s =
        goodRepCalls m target s ++ [(m + 1, target, s (m + 1))] := by
      unfold goodRepCalls
      rw [List.range_succ, List.map_append]
      rfl
    rw [hsplit, processCalls_append, ih htm hsm]
    have hstep : processCalls (stateAfter m) [(m + 1, target, s (m + 1))] =
        (stateAfter (m + 1),
         [if 5 ≤ m + 1 then some (streakPrompt (m + 1) (m + 1) 0) else none]) := by
      unfold processCalls
      rw [generateMotivation_goodRep m target (s (m + 1)) 0
        (hscore (m + 1) (by omega) (by omega)) htarget]
      rfl
    rw [hstep, List.range_succ, List.map_append]
    rfl

/-- C6 counterexample: with six consecutive accepted reps of score 100
towards a 100-rep target, the engine fires the streak-5 prompt after the 5th
rep and then fires again — with the same streak-5 message — on the 6th good
rep, contradicting the claim that no streak celebration fires before the
streak reaches 10. -/
theorem streak_refire_counterexample :
    (processCalls initMotivationEngine (goodRepCalls 6 100 (fun _ => 100))).2.map
        (fun o => o.map FeedbackPrompt.message) =
      [none, none, none, none, some motStreak5, some motStreak5] ∧
    motStreak5 ≠ motStreak10 := by
  constructor
  · rw [processCalls_goodReps 6 100 (fun _ => 100) (by norm_num)
      (fun k h1 h2 => by norm_num)]
    rfl
  · decide

/-- C6 (amended): once the streak reaches the threshold of 5, a streak
celebration fires on every subsequent consecutive good rep (each new streak
length strictly exceeds the last celebrated one), not only at 10; the message
switches from the streak-5 text to the distinct streak-10 text as soon as the
streak reaches 10. -/
theorem streak_refire_amended :
    (∀ (n target : ℕ) (s : ℕ → ℚ),
        4 * n < target →
        (∀ k, 1 ≤ k → k ≤ n → 70 ≤ s k) →
        (processCalls initMotivationEngine (goodRepCalls n target s)).2 =
          (List.range n).map (fun i =>
            if 5 ≤ i + 1 then some (streakPrompt (i + 1) (i + 1) 0) else none)) ∧
    (∀ k, (streakPrompt k k 0).message =
        if 10 ≤ k then motStreak10 else motStreak5) ∧
    motStreak5 ≠ motStreak10 := by
  refine ⟨?_, fun k => rfl, by decide⟩
  intro n target s htarget hscore
  rw [processCalls_goodReps n target s htarget hscore]

/-- C6 witness: the amended statement instantiated on twelve consecutive good
reps towards a target of 100 — the streak prompt fires on reps 5 through 12,
with the streak-10 message from rep 10 on. -/
theorem streak_refire_witness :
    4 * 12 < 100 ∧
    (processCalls initMotivationEngine (goodRepCalls 12 100 (fun _ => 100))).2 =
      (List.range 12).map (fun i =>
        if 5 ≤ i + 1 then some (streakPrompt (i + 1) (i + 1) 0) else none) :=
  ⟨by norm_num,
   streak_refire_amended.1 12 100 (fun _ => 100) (by norm_num)
     (fun k h1 h2 => by norm_num)⟩

/-! ## Rep counter (`rep-counter/rep-counter.ts`) -/

/-- `PeakMetrics` from `types/rep.types.ts`. -/
structure PeakMetrics where
  peakValue : ℚ
  peakFrame : ℕ
  thresholdMet : Bool
  deriving DecidableEq

/-- The coaching-engine `RepEvent` (`types/rep.types.ts`); `completedAt` is
modelled by its epoch-millisecond value, the `errorsDetected` and
`feedbackGiven` lists start empty and are filled by other components. -/
structure CRepEvent where
  repNumber : ℕ
  startFrame : ℕ
  endFrame : ℕ
  durationMs : ℚ
  correctnessScore : ℚ
  errorsDetected : List String
  feedbackGiven : List String
  completedAt : ℚ
  peakMetrics : PeakMetrics
  deriving DecidableEq

/-- `BasicRepEvent` interface of the rep counter. -/
structure BasicRepEvent where
  repNumber : ℕ
  startFrame : ℕ
  endFrame : ℕ
  durationMs : ℚ
  peakValue : ℚ
  peakFrame : ℕ
  deriving DecidableEq

/-- `RepCounterConfig` with its defaults resolved. -/
structure RepCounterConfig where
  minFormScore : ℚ
  voiceConfirmation : Bool
  minRepInterval : ℚ
  deriving DecidableEq

/-- The constructor defaults: `minFormScore: 50`, `voiceConfirmation: true`,
`minRepInterval: 500`. -/
def defaultRepCounterConfig : RepCounterConfig := ⟨50, true, 500⟩

/-- `ExtendedRepEvent` (a `RepEvent` plus its `formScore`). -/
structure ExtendedRepEvent where
  event : CRepEvent
  formScore : ℚ
  deriving DecidableEq

/-- The `RepCounter` instance fields. -/
structure RepCounter where
  count : ℕ
  repHistory : List ExtendedRepEvent
  rejectedCount : ℕ
  lastRepTimestamp : ℚ
  config : RepCounterConfig
  deriving DecidableEq

/-- A freshly constructed `RepCounter` (also the post-`reset()` state, which
keeps the configuration). -/
def initRepCounter (config : RepCounterConfig) : RepCounter :=
  ⟨0, [], 0, 0, config⟩

/-- `RepCounter.processRep`; `now` models `Date.now()`.  Note that the
debounce branch returns null WITHOUT touching `rejectedCount` — only the
form-score branch increments it. -/
def processRep (rc : RepCounter) (basicRepEvent : BasicRepEvent)
    (formScore : ℚ) (now : ℚ) : RepCounter × Option CRepEvent :=
  if now - rc.lastRepTimestamp < rc.config.minRepInterval then (rc, none)
  else if formScore < rc.config.minFormScore then
    ({ rc with rejectedCount := rc.rejectedCount + 1 }, none)
  else
    let count := rc.count + 1
    let peakMetrics : PeakMetrics :=
      ⟨basicRepEvent.peakValue, basicRepEvent.peakFrame,
       decide (rc.config.minFormScore ≤ formScore)⟩
    let fullRepEvent : CRepEvent :=
      ⟨count, basicRepEvent.startFrame, basicRepEvent.endFrame,
       basicRepEvent.durationMs, formScore, [], [], now, peakMetrics⟩
    ({ rc with
       count := count,
       lastRepTimestamp := now,
       repHistory := rc.repHistory ++ [⟨fullRepEvent, formScore⟩] },
     some fullRepEvent)

/-- First detected rep of the C3 scenario. -/
def basicRep1 : BasicRepEvent := ⟨1, 10, 20, 300, 85, 15⟩

/-- Second detected rep of the C3 scenario, completed 300 ms after the
first. -/
def basicRep2 : BasicRepEvent := ⟨2, 25, 35, 300, 85, 30⟩

/-- C3 counterexample: two reps 300 ms apart — the first is accepted and the
second is rejected by the debounce, but `rejectedCount` stays at 0 (the claim
requires it to become 1); only the form-score branch ever increments it. -/
theorem debounce_no_reject_increment_counterexample :
    ((processRep (initRepCounter defaultRepCounterConfig) basicRep1 100 600).2.isSome
      = true) ∧
    (processRep (initRepCounter defaultRepCounterConfig) basicRep1 100 600).1.count = 1 ∧
    (processRep (processRep (initRepCounter defaultRepCounterConfig) basicRep1 100 600).1
        basicRep2 100 900).2 = none ∧
    (processRep (processRep (initRepCounter defaultRepCounterConfig) basicRep1 100 600).1
        basicRep2 100 900).1.rejectedCount = 0 ∧
    (processRep (processRep (initRepCounter defaultRepCounterConfig) basicRep1 100 600).1
        basicRep2 100 900).1.count = 1 := by
  norm_num [processRep, initRepCounter, defaultRepCounterConfig]

/-- C3 (amended): a call inside the debounce interval returns null and leaves
the counter — including `rejectedCount` — completely unchanged; a call past
the debounce whose form score is below the minimum returns null and
increments `rejectedCount`. -/
theorem debounce_reject_amended :
    ∀ (rc : RepCounter) (b : BasicRepEvent) (formScore now : ℚ),
      (now - rc.lastRepTimestamp < rc.config.minRepInterval →
        processRep rc b formScore now = (rc, none)) ∧
      (rc.config.minRepInterval ≤ now - rc.lastRepTimestamp →
        formScore < rc.config.minFormScore →
        processRep rc b formScore now =
          ({ rc with rejectedCount := rc.rejectedCount + 1 }, none)) := by
  intro rc b formScore now
  constructor
  · intro h
    rw [processRep, if_pos h]
  · intro h1 h2
    rw [processRep, if_neg (not_lt.mpr h1), if_pos h2]

/-- C3 witness: the amended statement instantiated on the concrete two-rep
scenario (debounce branch) and on a low-score rep (rejection branch). -/
theorem debounce_reject_witness :
    ((900 : ℚ) - 600 < 500 ∧
      processRep (processRep (initRepCounter defaultRepCounterConfig) basicRep1 100 600).1
          basicRep2 100 900 =
        ((processRep (initRepCounter defaultRepCounterConfig) basicRep1 100 600).1, none)) ∧
    ((500 : ℚ) ≤ 600 - 0 ∧ (30 : ℚ) < 50 ∧
      processRep (initRepCounter defaultRepCounterConfig) basicRep1 30 600 =
        (⟨0, [], 1, 0, defaultRepCounterConfig⟩, none)) := by
  have h1 : (900 : ℚ) - (processRep (initRepCounter defaultRepCounterConfig)
      basicRep1 100 600).1.lastRepTimestamp <
      (processRep (initRepCounter defaultRepCounterConfig)
        basicRep1 100 600).1.config.minRepInterval := by
    norm_num [processRep, initRepCounter, defaultRepCounterConfig]
  refine ⟨⟨by norm_num, ?_⟩, by norm_num, by norm_num, ?_⟩
  · exact (debounce_reject_amended
      (processRep (initRepCounter defaultRepCounterConfig) basicRep1 100 600).1
      basicRep2 100 900).1 h1
  · exact (debounce_reject_amended (initRepCounter defaultRepCounterConfig)
      basicRep1 30 600).2 (by norm_num [initRepCounter, defaultRepCounterConfig])
      (by norm_num [initRepCounter, defaultRepCounterConfig])

/-! ## Voice coach delivery queue (`motivation/voice-coach.ts`) -/

/-- `VoiceCoach.queueFeedback`, one iteration of its `for` loop: returns the
new pending queue together with the processed prompt and a flag recording
whether this call marked it SKIPPED.  CRITICAL prompts are unshifted to the
front unconditionally; at capacity only INFO/NORMAL prompts are skipped; HIGH
prompts are spliced in after the leading run of CRITICAL items (`findIndex`
of the first non-critical item). -/
def queueOne (maxQueueSize : ℕ) (queue : List FeedbackPrompt)
    (feedback : FeedbackPrompt) :
    List FeedbackPrompt × (FeedbackPrompt × Bool) :=
  if feedback.severity = Severity.critical then
    (feedback :: queue, (feedback, false))
  else if maxQueueSize ≤ queue.length ∧
      (feedback.severity = Severity.info ∨ feedback.severity = Severity.normal) then
    (queue, ({ feedback with ttsStatus := TTSStatus.skipped }, true))
  else if feedback.severity = Severity.high then
    (match queue.findIdx? (fun g => decide (g.severity ≠ Severity.critical)) with
     | none => queue ++ [feedback]
     | some i => queue.insertIdx i feedback,
     (feedback, false))
  else (queue ++ [feedback], (feedback, false))

/-- The whole `queueFeedback` loop over a feedback list. -/
def queueFeedbackAll (maxQueueSize : ℕ) (queue : List FeedbackPrompt) :
    List FeedbackPrompt → List FeedbackPrompt × List (FeedbackPrompt × Bool)
  | [] => (queue, [])
  | f :: fs =>
    let step := queueOne maxQueueSize queue f
    let rest := queueFeedbackAll maxQueueSize step.1 fs
    (rest.1, step.2 :: rest.2)

/-- The operations that touch the pending queue: a `queueFeedback` call, the
`shift()` performed by the delivery loop, and `clearQueue()`. -/
inductive QueueOp
  | enqueue (feedbackList : List FeedbackPrompt)
  | dequeue
  | clear

/-- One queue operation applied to (pending queue, log of processed prompts
with their skipped flags). -/
def applyOp (maxQueueSize : ℕ)
    (st : List FeedbackPrompt × List (FeedbackPrompt × Bool)) (op : QueueOp) :
    List FeedbackPrompt × List (FeedbackPrompt × Bool) :=
  match op with
  | QueueOp.enqueue fs =>
    let step := queueFeedbackAll maxQueueSize st.1 fs
    (step.1, st.2 ++ step.2)
  | QueueOp.dequeue => (st.1.tail, st.2)
  | QueueOp.clear => ([], st.2)

/-- A whole session of queue operations from an empty queue. -/
def runQueue (maxQueueSize : ℕ) (ops : List QueueOp) :
    List FeedbackPrompt × List (FeedbackPrompt × Bool) :=
  ops.foldl (applyOp maxQueueSize) ([], [])

/-- Number of NORMAL/INFO prompts held in the pending queue. -/
def countNI (queue : List FeedbackPrompt) : ℕ :=
  queue.countP
    (fun f => decide (f.severity = Severity.normal ∨ f.severity = Severity.info))

/-- Helper: `countP` never exceeds the length. -/
theorem countNI_le_length (queue : List FeedbackPrompt) :
    countNI queue ≤ queue.length :=
  List.countP_le_length _

/-- Helper: a single `queueOne` step keeps the NORMAL/INFO count within the
capacity. -/
theorem queueOne_countNI (maxQueueSize : ℕ) (queue : List FeedbackPrompt)
    (f : FeedbackPrompt) (h : countNI queue ≤ maxQueueSize) :
    countNI (queueOne maxQueueSize queue f).1 ≤ maxQueueSize := by
  unfold queueOne
  split_ifs with hc hfull hhigh
  · -- critical: unshift, severity not counted
    dsimp only
    unfold countNI
    rw [List.countP_cons_of_neg]
    · exact h
    · simp [hc]
  · exact h
  · -- high: insertion keeps the count unchanged
    dsimp only
    rcases hf : queue.findIdx? (fun g => decide (g.severity ≠ Severity.critical)) with _ | i
    · rw [hf]
      unfold countNI
      rw [List.countP_append]
      have hzero : List.countP
          (fun f => decide (f.severity = Severity.normal ∨ f.severity = Severity.info))
          [f] = 0 := by
        simp [hhigh]
      rw [hzero, Nat.add_zero]
      exact h
    · rw [hf]
      have hi : i ≤ queue.length := by
        have hidx := List.findIdx?_eq_some_iff_findIdx_eq.mp hf
        omega
      have hperm : (queue.insertIdx i f).Perm (f :: queue) :=
        List.perm_insertIdx f queue hi
      unfold countNI
      rw [hperm.countP_eq]
      rw [List.countP_cons_of_neg]
      · exact h
      · simp [hhigh]
  · -- normal/info appended while below capacity
    dsimp only
    have hni : f.severity = Severity.info ∨ f.severity = Severity.normal := by
      cases hsev : f.severity
      · exact Or.inl rfl
      · exact Or.inr rfl
      · exact absurd hsev hhigh
      · exact absurd hsev hc
    have hlen : queue.length < maxQueueSize := by
      by_contra hge
      push_neg at hge
      exact hfull ⟨hge, hni⟩
    have hle := countNI_le_length queue
    unfold countNI at hle ⊢
    rw [List.countP_append]
    have hone : List.countP
        (fun f => decide (f.severity = Severity.normal ∨ f.severity = Severity.info))
        [f] ≤ 1 := List.countP_le_length _
    omega

/-- Helper: a `queueOne` step marks a prompt SKIPPED only when its severity
is NORMAL or INFO. -/
theorem queueOne_skipped_NI (maxQueueSize : ℕ) (queue : List FeedbackPrompt)
    (f : FeedbackPrompt) :
    (queueOne maxQueueSize queue f).2.2 = true →
    ((queueOne maxQueueSize queue f).2.1.severity = Severity.normal ∨
     (queueOne maxQueueSize queue f).2.1.severity = Severity.info) := by
  unfold queueOne
  split_ifs with hc hfull hhigh
  · intro hT
    exact absurd hT (by simp)
  · intro _
    rcases hfull.2 with hs | hs
    · exact Or.inr hs
    · exact Or.inl hs
  · intro hT
    exact hT.elim
  · intro hT
    exact absurd hT (by simp)

/-- Helper: `queueFeedbackAll` preserves the NORMAL/INFO capacity bound and
only marks NORMAL/INFO prompts as SKIPPED. -/
theorem queueFeedbackAll_inv (maxQueueSize : ℕ) (fs : List FeedbackPrompt) :
    ∀ queue, countNI queue ≤ maxQueueSize →
      countNI (queueFeedbackAll maxQueueSize queue fs).1 ≤ maxQueueSize ∧
      ∀ pair ∈ (queueFeedbackAll maxQueueSize queue fs).2, pair.2 = true →
        pair.1.severity = Severity.normal ∨ pair.1.severity = Severity.info := by
  induction fs with
  | nil =>
    intro queue hq
    exact ⟨hq, fun pair hp => absurd hp (List.not_mem_nil _)⟩
  | cons f rest ih =>
    intro queue hq
    unfold queueFeedbackAll
    dsimp only
    obtain ⟨h1, h2⟩ := ih (queueOne maxQueueSize queue f).1
      (queueOne_countNI maxQueueSize queue f hq)
    refine ⟨h1, ?_⟩
    intro pair hp hskip
    rcases List.mem_cons.mp hp with rfl | hp
    · exact queueOne_skipped_NI maxQueueSize queue f hskip
    · exact h2 pair hp hskip

/-- Helper: the invariant of C7 holds along any session of queue
operations. -/
theorem foldl_queue_inv (maxQueueSize : ℕ) (ops : List QueueOp) :
    ∀ st : List FeedbackPrompt × List (FeedbackPrompt × Bool),
      countNI st.1 ≤ maxQueueSize →
      (∀ pair ∈ st.2, pair.2 = true →
        pair.1.severity = Severity.normal ∨ pair.1.severity = Severity.info) →
      countNI (ops.foldl (applyOp maxQueueSize) st).1 ≤ maxQueueSize ∧
      ∀ pair ∈ (ops.foldl (applyOp maxQueueSize) st).2, pair.2 = true →
        pair.1.severity = Severity.normal ∨ pair.1.severity = Severity.info := by
  induction ops with
  | nil => intro st h1 h2; exact ⟨h1, h2⟩
  | cons op rest ih =>
    intro st h1 h2
    rw [List.foldl_cons]
    apply ih
    · cases op with
      | enqueue fs => exact (queueFeedbackAll_inv maxQueueSize fs st.1 h1).1
      | dequeue =>
        refine le_trans ?_ h1
        exact List.Sublist.countP_le _ (List.tail_sublist st.1)
      | clear => simp [applyOp, countNI]
    · cases op with
      | enqueue fs =>
        intro pair hp hskip
        rcases List.mem_append.mp hp with hp | hp
        · exact h2 pair hp hskip
        · exact (queueFeedbackAll_inv maxQueueSize fs st.1 h1).2 pair hp hskip
      | dequeue => exact h2
      | clear => exact h2

/-- Helper: the `findIndex`/`splice` pair of the HIGH branch inserts the new
prompt right after the leading run of CRITICAL items. -/
theorem findIdx_insert_takeWhile (q : List FeedbackPrompt) (f : FeedbackPrompt) :
    (match q.findIdx? (fun g => decide (g.severity ≠ Severity.critical)) with
     | none => q ++ [f]
     | some i => q.insertIdx i f) =
      q.takeWhile (fun g => decide (g.severity = Severity.critical)) ++
        f :: q.dropWhile (fun g => decide (g.severity = Severity.critical)) := by
  induction q with
  | nil => rfl
  | cons g rest ih =>
    by_cases hg : g.severity = Severity.critical
    · have hpg : (decide (g.severity ≠ Severity.critical)) = false := by simp [hg]
      have hcg : (decide (g.severity = Severity.critical)) = true := by simp [hg]
      rw [List.findIdx?_cons, hpg, if_neg (by simp), List.findIdx?_succ,
        List.takeWhile_cons, List.dropWhile_cons]
      simp only [hcg, eq_self_iff_true, if_true]
      rcases hrest : rest.findIdx? (fun g => decide (g.severity ≠ Severity.critical)) with _ | i
      · rw [hrest] at ih
        dsimp only at ih
        simp only [hrest, Option.map_none']
        rw [List.cons_append, ih, List.cons_append]
      · rw [hrest] at ih
        dsimp only at ih
        simp only [hrest, Option.map_some']
        rw [List.insertIdx_succ_cons, ih, List.cons_append]
    · have hpg : (decide (g.severity ≠ Severity.critical)) = true := by simp [hg]
      have hcg : (decide (g.severity = Severity.critical)) = false := by simp [hg]
      rw [List.findIdx?_cons, hpg, if_pos rfl,
        List.takeWhile_cons, List.dropWhile_cons]
      simp only [hcg, Bool.false_eq_true, if_false]
      rfl

/-- C7: along every session of queue operations from an empty queue, the
pending queue never holds more than `maxQueueSize` NORMAL/INFO prompts, a
prompt is marked SKIPPED only if it is NORMAL or INFO (so a CRITICAL prompt
is never marked SKIPPED), and a CRITICAL prompt is always unshifted to the
front of the queue whatever the current queue length. -/
theorem delivery_queue_invariants :
    (∀ (maxQueueSize : ℕ) (ops : List QueueOp),
        countNI (runQueue maxQueueSize ops).1 ≤ maxQueueSize) ∧
    (∀ (maxQueueSize : ℕ) (ops : List QueueOp) (pair : FeedbackPrompt × Bool),
        pair ∈ (runQueue maxQueueSize ops).2 → pair.2 = true →
        pair.1.severity = Severity.normal ∨ pair.1.severity = Severity.info) ∧
    (∀ (maxQueueSize : ℕ) (queue : List FeedbackPrompt) (f : FeedbackPrompt),
        f.severity = Severity.critical →
        queueOne maxQueueSize queue f = (f :: queue, (f, false))) := by
  have hrun : ∀ (m : ℕ) (ops : List QueueOp),
      countNI (runQueue m ops).1 ≤ m ∧
      ∀ pair ∈ (runQueue m ops).2, pair.2 = true →
        pair.1.severity = Severity.normal ∨ pair.1.severity = Severity.info :=
    fun m ops => foldl_queue_inv m ops ([], []) (by simp [countNI])
      (fun pair hp => absurd hp (List.not_mem_nil _))
  refine ⟨fun m ops => (hrun m ops).1,
    fun m ops pair hp hs => (hrun m ops).2 pair hp hs, ?_⟩
  intro m q f hf
  unfold queueOne
  rw [if_pos hf]

/-- Prompt literal helper for the queue witnesses. -/
def mkSimplePrompt (msg : String) (sev : Severity) : FeedbackPrompt :=
  ⟨"id", msg, FeedbackType.corrective, sev, [Modality.voice], 0,
   ⟨"rule", 0, 0⟩, TTSStatus.queued, none⟩

/-- A NORMAL prompt. -/
def promptN1 : FeedbackPrompt := mkSimplePrompt "n1" Severity.normal

/-- A second NORMAL prompt. -/
def promptN2 : FeedbackPrompt := mkSimplePrompt "n2" Severity.normal

/-- A third NORMAL prompt. -/
def promptN3 : FeedbackPrompt := mkSimplePrompt "n3" Severity.normal

/-- A fourth NORMAL prompt (the one dropped at capacity). -/
def promptN4 : FeedbackPrompt := mkSimplePrompt "n4" Severity.normal

/-- A CRITICAL prompt. -/
def promptCr : FeedbackPrompt := mkSimplePrompt "stop" Severity.critical

/-- A HIGH prompt. -/
def promptHi : FeedbackPrompt := mkSimplePrompt "careful" Severity.high

/-- C7 witness: a critical prompt arriving at a full queue of three NORMAL
items goes to the front (queue length becomes 4), the NORMAL/INFO bound holds
on a concrete overflowing session, and the skipped-marking lemma applies to
the concretely dropped fourth NORMAL prompt. -/
theorem delivery_queue_witness :
    promptCr.severity = Severity.critical ∧
    queueOne 3 [promptN1, promptN2, promptN3] promptCr =
      (promptCr :: [promptN1, promptN2, promptN3], (promptCr, false)) ∧
    countNI (runQueue 3 [QueueOp.enqueue [promptN1, promptN2, promptN3, promptN4]]).1 ≤ 3 ∧
    (({ promptN4 with ttsStatus := TTSStatus.skipped }, true).1.severity = Severity.normal ∨
     ({ promptN4 with ttsStatus := TTSStatus.skipped }, true).1.severity = Severity.info) := by
  refine ⟨rfl,
    delivery_queue_invariants.2.2 3 [promptN1, promptN2, promptN3] promptCr rfl,
    delivery_queue_invariants.1 3 [QueueOp.enqueue [promptN1, promptN2, promptN3, promptN4]],
    ?_⟩
  exact delivery_queue_invariants.2.1 3
    [QueueOp.enqueue [promptN1, promptN2, promptN3, promptN4]]
    ({ promptN4 with ttsStatus := TTSStatus.skipped }, true)
    (List.mem_cons_of_mem _ (List.mem_cons_of_mem _ (List.mem_cons_of_mem _
      (List.mem_cons_self _ _)))) rfl

/-- C10: a HIGH prompt is never marked SKIPPED — whatever the queue length it
is spliced in immediately after the leading run of CRITICAL items (before the
first non-critical item), and in every session the logged skipped flag of a
HIGH prompt is false. -/
theorem high_severity_never_skipped :
    (∀ (maxQueueSize : ℕ) (queue : List FeedbackPrompt) (f : FeedbackPrompt),
        f.severity = Severity.high →
        queueOne maxQueueSize queue f =
          (queue.takeWhile (fun g => decide (g.severity = Severity.critical)) ++
             f :: queue.dropWhile (fun g => decide (g.severity = Severity.critical)),
           (f, false))) ∧
    (∀ (maxQueueSize : ℕ) (ops : List QueueOp) (pair : FeedbackPrompt × Bool),
        pair ∈ (runQueue maxQueueSize ops).2 → pair.1.severity = Severity.high →
        pair.2 = false) := by
  constructor
  · intro m q f hf
    unfold queueOne
    rw [if_neg (by simp [hf]), if_neg (by simp [hf]), if_pos hf,
      findIdx_insert_takeWhile]
  · intro m ops pair hp hhigh
    rcases hb : pair.2 with _ | _
    · rfl
    · have hni := (foldl_queue_inv m ops ([], []) (by simp [countNI])
        (fun p hp2 => absurd hp2 (List.not_mem_nil _))).2 pair hp hb
      rcases hni with h | h <;> rw [hhigh] at h <;> exact absurd h (by decide)

/-- C10 witness: a HIGH prompt arriving at a full three-item queue headed by
a CRITICAL item is inserted at position 1 — after the critical run, before
the first NORMAL item — and its logged skipped flag is false. -/
theorem high_insertion_witness :
    promptHi.severity = Severity.high ∧
    queueOne 3 [promptCr, promptN1, promptN2] promptHi =
      ([promptCr, promptHi, promptN1, promptN2], (promptHi, false)) ∧
    (promptHi, false).2 = false := by
  refine ⟨rfl, ?_, ?_⟩
  · have h := high_severity_never_skipped.1 3 [promptCr, promptN1, promptN2] promptHi rfl
    rw [h]
    rfl
  · exact high_severity_never_skipped.2 3 [QueueOp.enqueue [promptHi]]
      (promptHi, false) (List.mem_cons_self _ _) rfl

/-! ## Rep detector trace invariants -/

/-- The twelve core landmark ids produced by `PoseDetector.extractCoreLandmarks`. -/
def coreIds : List ℕ := [11, 12, 13, 14, 15, 16, 23, 24, 25, 26, 27, 28]

/-- A well-formed frame carries all twelve core landmarks. -/
def WellFormedFrame (frame : PoseFrame) : Prop :=
  ∀ id ∈ coreIds, (findLm frame id).isSome = true

/-- The engaged phase of each exercise state machine (DOWN for push-ups, UP
for marching and jumping jacks). -/
def engagedPhase : ExerciseType → RepPhase
  | ExerciseType.push_ups => RepPhase.down
  | _ => RepPhase.up

/-- The phase entered when a rep completes. -/
def releasePhase : ExerciseType → RepPhase
  | ExerciseType.push_ups => RepPhase.up
  | _ => RepPhase.down

/-- `seqFrom a n = [a, a+1, ..., a+n-1]`, the expected rep-number sequence. -/
def seqFrom (a : ℕ) : ℕ → List ℕ
  | 0 => []
  | n + 1 => a :: seqFrom (a + 1) n

/-- Helper: `seqFrom` is strictly increasing. -/
theorem chain'_seqFrom : ∀ (n a : ℕ), List.Chain' (· < ·) (seqFrom a n) := by
  intro n
  induction n with
  | zero => intro a; exact List.chain'_nil
  | succ m ih =>
    intro a
    rw [seqFrom]
    apply List.chain'_cons'.mpr
    refine ⟨?_, ih (a + 1)⟩
    intro y hy
    cases m with
    | zero => cases hy
    | succ k =>
      rw [seqFrom] at hy
      have : a + 1 = y := by
        simpa using hy
      omega

/-- Helper: extract a landmark from a well-formed frame. -/
theorem wf_findLm (frame : PoseFrame) (h : WellFormedFrame frame) (id : ℕ)
    (hid : id ∈ coreIds) : ∃ l, findLm frame id = some l :=
  Option.isSome_iff_exists.mp (h id hid)

/-- Helper: the push-ups detector never throws on a well-formed frame. -/
theorem processPushUps_ok (d : RepDetector) (frame : PoseFrame)
    (hwf : WellFormedFrame frame) :
    ∃ r, processPushUps d frame = Except.ok r := by
  obtain ⟨ls, h11⟩ := wf_findLm frame hwf 11 (by decide)
  obtain ⟨le, h13⟩ := wf_findLm frame hwf 13 (by decide)
  obtain ⟨lw, h15⟩ := wf_findLm frame hwf 15 (by decide)
  unfold processPushUps
  rw [h11, h13, h15]
  exact ⟨_, rfl⟩

/-- Helper: the marching detector never throws on a well-formed frame. -/
theorem processMarching_ok (d : RepDetector) (frame : PoseFrame)
    (hwf : WellFormedFrame frame) :
    ∃ r, processMarching d frame = Except.ok r := by
  obtain ⟨lh, h23⟩ := wf_findLm frame hwf 23 (by decide)
  obtain ⟨rh, h24⟩ := wf_findLm frame hwf 24 (by decide)
  obtain ⟨lk, h25⟩ := wf_findLm frame hwf 25 (by decide)
  obtain ⟨rk, h26⟩ := wf_findLm frame hwf 26 (by decide)
  unfold processMarching
  rw [h23, h24, h25, h26]
  exact ⟨_, rfl⟩

/-- Helper: the jumping-jacks detector never throws on a well-formed frame. -/
theorem processJumpingJacks_ok (d : RepDetector) (frame : PoseFrame)
    (hwf : WellFormedFrame frame) :
    ∃ r, processJumpingJacks d frame = Except.ok r := by
  obtain ⟨lw, h15⟩ := wf_findLm frame hwf 15 (by decide)
  obtain ⟨rw2, h16⟩ := wf_findLm frame hwf 16 (by decide)
  obtain ⟨la, h27⟩ := wf_findLm frame hwf 27 (by decide)
  obtain ⟨ra, h28⟩ := wf_findLm frame hwf 28 (by decide)
  unfold processJumpingJacks
  rw [h15, h16, h27, h28]
  exact ⟨_, rfl⟩

/-- Helper: `processFrame` never throws on a well-formed frame. -/
theorem processFrame_ok (d : RepDetector) (frame : PoseFrame)
    (hwf : WellFormedFrame frame) :
    ∃ r, processFrame d frame = Except.ok r := by
  unfold processFrame
  cases d.exercise
  · exact processMarching_ok d frame hwf
  · exact processJumpingJacks_ok d frame hwf
  · exact processPushUps_ok d frame hwf

/-- The per-call contract of the detector step: the exercise binding never
changes; a null result leaves the rep count unchanged and can (re)set the
start frame only to the current frame; an emitted event closes a full
engage→release cycle, carries the next rep ordinal, starts at the recorded
engagement frame and ends at the current frame. -/
def StepSpec (d : RepDetector) (frame : PoseFrame) (d' : RepDetector)
    (ev : Option RepEvent) : Prop :=
  d'.exercise = d.exercise ∧
  match ev with
  | none =>
    d'.repCount = d.repCount ∧
    (d'.state.phase = engagedPhase d.exercise →
      (d'.state.startFrame = frame.frameNumber ∨
       (d.state.phase = engagedPhase d.exercise ∧
        d'.state.startFrame = d.state.startFrame)))
  | some e =>
    d.state.phase = engagedPhase d.exercise ∧
    d'.state.phase = releasePhase d.exercise ∧
    e.repNumber = d.repCount + 1 ∧
    d'.repCount = d.repCount + 1 ∧
    e.startFrame = d.state.startFrame ∧
    e.endFrame = frame.frameNumber ∧
    d'.state.startFrame = frame.frameNumber

/-- Helper: every successful push-ups step satisfies the contract. -/
theorem processPushUps_spec (d : RepDetector) (frame : PoseFrame)
    (d' : RepDetector) (ev : Option RepEvent)
    (hex : d.exercise = ExerciseType.push_ups)
    (h : processPushUps d frame = Except.ok (d', ev)) :
    StepSpec d frame d' ev := by
  unfold processPushUps at h
  split at h
  case _ ls le lw =>
    rw [Except.ok.injEq] at h
    dsimp only at h
    split at h
    · -- phase NEUTRAL: waiting for the down movement
      rename_i hph
      split at h
      · split at h
        · -- engage
          obtain ⟨rfl, rfl⟩ := Prod.mk.inj h.symm
          refine ⟨rfl, rfl, ?_⟩
          intro _
          exact Or.inl rfl
        · -- below the engagement threshold: state unchanged
          obtain ⟨rfl, rfl⟩ := Prod.mk.inj h.symm
          refine ⟨rfl, rfl, ?_⟩
          intro hco
          rw [hph, hex] at hco
          exact absurd hco (by decide)
      · -- NaN angle: state unchanged
        obtain ⟨rfl, rfl⟩ := Prod.mk.inj h.symm
        refine ⟨rfl, rfl, ?_⟩
        intro hco
        rw [hph, hex] at hco
        exact absurd hco (by decide)
    · -- phase UP: same waiting arm
      rename_i hph
      split at h
      · split at h
        · obtain ⟨rfl, rfl⟩ := Prod.mk.inj h.symm
          refine ⟨rfl, rfl, ?_⟩
          intro _
          exact Or.inl rfl
        · obtain ⟨rfl, rfl⟩ := Prod.mk.inj h.symm
          refine ⟨rfl, rfl, ?_⟩
          intro hco
          rw [hph, hex] at hco
          exact absurd hco (by decide)
      · obtain ⟨rfl, rfl⟩ := Prod.mk.inj h.symm
        refine ⟨rfl, rfl, ?_⟩
        intro hco
        rw [hph, hex] at hco
        exact absurd hco (by decide)
    · -- phase DOWN: engaged
      rename_i hph
      split at h
      · split at h
        · -- release: emit exactly one event
          obtain ⟨rfl, rfl⟩ := Prod.mk.inj h.symm
          refine ⟨rfl, ?_, ?_, rfl, rfl, rfl, rfl, rfl⟩
          · rw [hph, hex]
            rfl
          · rw [hex]
            rfl
        · -- still engaged: peak/progress update only
          obtain ⟨rfl, rfl⟩ := Prod.mk.inj h.symm
          refine ⟨rfl, rfl, ?_⟩
          intro _
          refine Or.inr ⟨?_, rfl⟩
          rw [hph, hex]
          rfl
      · -- NaN angle while engaged: progress becomes NaN, no transition
        obtain ⟨rfl, rfl⟩ := Prod.mk.inj h.symm
        refine ⟨rfl, rfl, ?_⟩
        intro _
        refine Or.inr ⟨?_, rfl⟩
        rw [hph, hex]
        rfl
  case _ =>
    exact absurd h (by simp)

/-- Helper: every successful marching step satisfies the contract. -/
theorem processMarching_spec (d : RepDetector) (frame : PoseFrame)
    (d' : RepDetector) (ev : Option RepEvent)
    (hex : d.exercise = ExerciseType.marching)
    (h : processMarching d frame = Except.ok (d', ev)) :
    StepSpec d frame d' ev := by
  unfold processMarching at h
  split at h
  case _ lh rh lk rk =>
    rw [Except.ok.injEq] at h
    dsimp only at h
    split at h
    · -- phase NEUTRAL: waiting for the lift
      rename_i hph
      split at h
      · -- engage
        obtain ⟨rfl, rfl⟩ := Prod.mk.inj h.symm
        refine ⟨rfl, rfl, ?_⟩
        intro _
        exact Or.inl rfl
      · -- below the lift threshold: state unchanged
        obtain ⟨rfl, rfl⟩ := Prod.mk.inj h.symm
        refine ⟨rfl, rfl, ?_⟩
        intro hco
        rw [hph, hex] at hco
        exact absurd hco (by decide)
    · -- phase DOWN: same waiting arm
      rename_i hph
      split at h
      · obtain ⟨rfl, rfl⟩ := Prod.mk.inj h.symm
        refine ⟨rfl, rfl, ?_⟩
        intro _
        exact Or.inl rfl
      · obtain ⟨rfl, rfl⟩ := Prod.mk.inj h.symm
        refine ⟨rfl, rfl, ?_⟩
        intro hco
        rw [hph, hex] at hco
        exact absurd hco (by decide)
    · -- phase UP: engaged
      rename_i hph
      split at h
      · -- release: emit exactly one event
        obtain ⟨rfl, rfl⟩ := Prod.mk.inj h.symm
        refine ⟨rfl, ?_, ?_, rfl, rfl, rfl, rfl, rfl⟩
        · rw [hph, hex]
          rfl
        · rw [hex]
          rfl
      · -- still engaged: peak/progress update only
        obtain ⟨rfl, rfl⟩ := Prod.mk.inj h.symm
        refine ⟨rfl, rfl, ?_⟩
        intro _
        refine Or.inr ⟨?_, rfl⟩
        rw [hph, hex]
        rfl
  case _ =>
    exact absurd h (by simp)

/-- Helper: every successful jumping-jacks step satisfies the contract. -/
theorem processJumpingJacks_spec (d : RepDetector) (frame : PoseFrame)
    (d' : RepDetector) (ev : Option RepEvent)
    (hex : d.exercise = ExerciseType.jumping_jacks)
    (h : processJumpingJacks d frame = Except.ok (d', ev)) :
    StepSpec d frame d' ev := by
  unfold processJumpingJacks at h
  split at h
  case _ lw rw2 la ra =>
    rw [Except.ok.injEq] at h
    dsimp only at h
    split at h
    · -- phase NEUTRAL: waiting for the open position
      rename_i hph
      split at h
      · obtain ⟨rfl, rfl⟩ := Prod.mk.inj h.symm
        refine ⟨rfl, rfl, ?_⟩
        intro _
        exact Or.inl rfl
      · obtain ⟨rfl, rfl⟩ := Prod.mk.inj h.symm
        refine ⟨rfl, rfl, ?_⟩
        intro hco
        rw [hph, hex] at hco
        exact absurd hco (by decide)
    · -- phase DOWN: same waiting arm
      rename_i hph
      split at h
      · obtain ⟨rfl, rfl⟩ := Prod.mk.inj h.symm
        refine ⟨rfl, rfl, ?_⟩
        intro _
        exact Or.inl rfl
      · obtain ⟨rfl, rfl⟩ := Prod.mk.inj h.symm
        refine ⟨rfl, rfl, ?_⟩
        intro hco
        rw [hph, hex] at hco
        exact absurd hco (by decide)
    · -- phase UP: engaged
      rename_i hph
      split at h
      · obtain ⟨rfl, rfl⟩ := Prod.mk.inj h.symm
        refine ⟨rfl, ?_, ?_, rfl, rfl, rfl, rfl, rfl⟩
        · rw [hph, hex]
          rfl
        · rw [hex]
          rfl
      · obtain ⟨rfl, rfl⟩ := Prod.mk.inj h.symm
        refine ⟨rfl, rfl, ?_⟩
        intro _
        refine Or.inr ⟨?_, rfl⟩
        rw [hph, hex]
        rfl
  case _ =>
    exact absurd h (by simp)

/-- Helper: every successful `processFrame` step satisfies the contract. -/
theorem processFrame_spec (d : RepDetector) (frame : PoseFrame)
    (d' : RepDetector) (ev : Option RepEvent)
    (h : processFrame d frame = Except.ok (d', ev)) :
    StepSpec d frame d' ev := by
  unfold processFrame at h
  split at h
  · exact processPushUps_spec d frame d' ev (by assumption) h
  · exact processMarching_spec d frame d' ev (by assumption) h
  · exact processJumpingJacks_spec d frame d' ev (by assumption) h

/-- Helper: the engaged and release phases of an exercise are distinct. -/
theorem engaged_ne_release (ex : ExerciseType) :
    engagedPhase ex ≠ releasePhase ex := by
  cases ex <;> decide

/-- Helper: the neutral phase is never an engaged phase. -/
theorem neutral_ne_engaged (ex : ExerciseType) :
    RepPhase.neutral ≠ engagedPhase ex := by
  cases ex <;> decide

/-- The main trace lemma: over well-formed frames with strictly increasing
frame numbers, the detector never throws, emits at most one event per frame,
numbers the events consecutively from `repCount + 1`, and every event spans a
strictly positive frame interval. -/
theorem runDetector_spec :
    ∀ (fs : List PoseFrame) (d : RepDetector),
      (∀ f ∈ fs, WellFormedFrame f) →
      List.Chain' (· < ·) (fs.map PoseFrame.frameNumber) →
      (∀ g ∈ fs.head?, d.state.phase = engagedPhase d.exercise →
        d.state.startFrame < g.frameNumber) →
      ∃ d' evs, runDetector d fs = Except.ok (d', evs) ∧
        d'.exercise = d.exercise ∧
        d'.repCount = d.repCount + evs.length ∧
        evs.map RepEvent.repNumber = seqFrom (d.repCount + 1) evs.length ∧
        (∀ e ∈ evs, e.startFrame < e.endFrame) ∧
        evs.length ≤ fs.length := by
  intro fs
  induction fs with
  | nil =>
    intro d _ _ _
    exact ⟨d, [], rfl, rfl, rfl, rfl, fun e he => absurd he (List.not_mem_nil _),
      Nat.le_refl 0⟩
  | cons f fs ih =>
    intro d hwf hchain hstart
    obtain ⟨⟨d₁, ev⟩, hstep⟩ := processFrame_ok d f (hwf f (List.mem_cons_self f fs))
    have hspec := processFrame_spec d f d₁ ev hstep
    rw [List.map_cons] at hchain
    obtain ⟨hhead, hchain₁⟩ := List.chain'_cons'.mp hchain
    have hwf₁ : ∀ g ∈ fs, WellFormedFrame g :=
      fun g hg => hwf g (List.mem_cons_of_mem f hg)
    have hfg : ∀ g ∈ fs.head?, f.frameNumber < g.frameNumber := by
      intro g hg
      apply hhead
      rw [List.head?_map]
      exact Option.mem_map_of_mem PoseFrame.frameNumber hg
    have hstart₁ : ∀ g ∈ fs.head?, d₁.state.phase = engagedPhase d₁.exercise →
        d₁.state.startFrame < g.frameNumber := by
      intro g hg hengaged
      rw [hspec.1] at hengaged
      cases ev with
      | none =>
        rcases hspec.2.2 hengaged with hnew | ⟨hdeng, hkeep⟩
        · rw [hnew]
          exact hfg g hg
        · rw [hkeep]
          exact lt_trans (hstart f rfl hdeng) (hfg g hg)
      | some e =>
        rw [hspec.2.2.1] at hengaged
        exact absurd hengaged.symm (engaged_ne_release d.exercise)
    obtain ⟨d₂, evs, hrun, hex₂, hcount, hmap, hframes, hlen⟩ :=
      ih d₁ hwf₁ hchain₁ hstart₁
    refine ⟨d₂, ev.toList ++ evs, ?_, hex₂.trans hspec.1, ?_, ?_, ?_, ?_⟩
    · unfold runDetector
      rw [hstep]
      dsimp only
      rw [hrun]
    · cases ev with
      | none =>
        rw [hspec.2.1] at hcount
        simpa using hcount
      | some e =>
        rw [hspec.2.2.2.2.1] at hcount
        simp only [Option.toList_some, List.singleton_append, List.length_cons]
        omega
    · cases ev with
      | none =>
        rw [hspec.2.1] at hmap
        simpa using hmap
      | some e =>
        rw [hspec.2.2.2.2.1] at hmap
        simp only [Option.toList_some, List.singleton_append, List.length_cons,
          List.map_cons]
        rw [seqFrom, hspec.2.2.2.1, hmap]
    · intro e he
      rcases List.mem_append.mp he with he | he
      · cases ev with
        | none => exact absurd he (List.not_mem_nil _)
        | some e₀ =>
          rw [Option.toList_some, List.mem_singleton] at he
          subst he
          rw [hspec.2.2.2.2.2.1, hspec.2.2.2.2.2.2.1]
          exact hstart f rfl hspec.2.1
      · exact hframes e he
    · have : ev.toList.length ≤ 1 := by
        cases ev <;> simp
      rw [List.length_append, List.length_cons]
      omega

/-- C4: over any well-formed frame sequence with strictly increasing frame
numbers, a fresh rep detector never throws, emits at most one event per
frame (the event list is never longer than the frame list, each call
returning at most an `Option`), events carry strictly increasing rep numbers
with `endFrame > startFrame`, and an event is emitted only on a transition
from the engaged phase to the release phase (a completed engage→release
cycle). -/
theorem repDetector_trace_invariants (ex : ExerciseType) (fs : List PoseFrame)
    (hwf : ∀ f ∈ fs, WellFormedFrame f)
    (hchain : List.Chain' (· < ·) (fs.map PoseFrame.frameNumber)) :
    ∃ d' evs, runDetector (initDetector ex) fs = Except.ok (d', evs) ∧
      List.Chain' (· < ·) (evs.map RepEvent.repNumber) ∧
      (∀ e ∈ evs, e.startFrame < e.endFrame) ∧
      evs.length ≤ fs.length ∧
      (∀ (d₁ : RepDetector) (f : PoseFrame) (d₂ : RepDetector) (e : RepEvent),
        processFrame d₁ f = Except.ok (d₂, some e) →
        d₁.state.phase = engagedPhase d₁.exercise ∧
        d₂.state.phase = releasePhase d₁.exercise) := by
  obtain ⟨d', evs, hrun, hex, hcount, hmap, hframes, hlen⟩ :=
    runDetector_spec fs (initDetector ex) hwf hchain
      (fun g hg hco => absurd hco (neutral_ne_engaged ex))
  refine ⟨d', evs, hrun, ?_, hframes, hlen, ?_⟩
  · rw [hmap]
    exact chain'_seqFrom _ _
  · intro d₁ f d₂ e h
    have hs := processFrame_spec d₁ f d₂ (some e) h
    exact ⟨hs.2.1, hs.2.2.1⟩

/-- First marching witness frame: left knee lifted well above the hips. -/
def marchFrame1 : PoseFrame :=
  ⟨0,
   [lm 11 0.4 0.2 0, lm 12 0.6 0.2 0, lm 13 0.35 0.35 0, lm 14 0.65 0.35 0,
    lm 15 0.3 0.5 0, lm 16 0.7 0.5 0, lm 23 0.45 0.5 0, lm 24 0.55 0.5 0,
    lm 25 0.45 0.3 0, lm 26 0.55 0.8 0, lm 27 0.45 0.9 0, lm 28 0.55 0.9 0],
   1⟩

/-- Second marching witness frame: the knee back down near hip level. -/
def marchFrame2 : PoseFrame :=
  ⟨33,
   [lm 11 0.4 0.2 0, lm 12 0.6 0.2 0, lm 13 0.35 0.35 0, lm 14 0.65 0.35 0,
    lm 15 0.3 0.5 0, lm 16 0.7 0.5 0, lm 23 0.45 0.5 0, lm 24 0.55 0.5 0,
    lm 25 0.45 0.48 0, lm 26 0.55 0.8 0, lm 27 0.45 0.9 0, lm 28 0.55 0.9 0],
   2⟩

/-- C4 witness: the trace theorem instantiated on a concrete two-frame
marching sequence whose frames carry all twelve landmarks and strictly
increasing frame numbers. -/
theorem repDetector_trace_witness :
    (∀ f ∈ [marchFrame1, marchFrame2], WellFormedFrame f) ∧
    List.Chain' (· < ·)
      ([marchFrame1, marchFrame2].map PoseFrame.frameNumber) ∧
    (∃ d' evs,
      runDetector (initDetector ExerciseType.marching)
          [marchFrame1, marchFrame2] = Except.ok (d', evs) ∧
      List.Chain' (· < ·) (evs.map RepEvent.repNumber) ∧
      (∀ e ∈ evs, e.startFrame < e.endFrame) ∧
      evs.length ≤ ([marchFrame1, marchFrame2] : List PoseFrame).length ∧
      (∀ (d₁ : RepDetector) (f : PoseFrame) (d₂ : RepDetector) (e : RepEvent),
        processFrame d₁ f = Except.ok (d₂, some e) →
        d₁.state.phase = engagedPhase d₁.exercise ∧
        d₂.state.phase = releasePhase d₁.exercise)) := by
  have h1 : WellFormedFrame marchFrame1 := by
    unfold WellFormedFrame
    decide
  have h2 : WellFormedFrame marchFrame2 := by
    unfold WellFormedFrame
    decide
  have hwf : ∀ f ∈ [marchFrame1, marchFrame2], WellFormedFrame f := by
    intro f hf
    rcases List.mem_cons.mp hf with rfl | hf
    · exact h1
    · rcases List.mem_cons.mp hf with rfl | hf
      · exact h2
      · exact absurd hf (List.not_mem_nil _)
  have hchain : List.Chain' (· < ·)
      ([marchFrame1, marchFrame2].map PoseFrame.frameNumber) :=
    List.chain'_pair.mpr (by decide)
  exact ⟨hwf, hchain,
    repDetector_trace_invariants ExerciseType.marching [marchFrame1, marchFrame2]
      hwf hchain⟩
